import Mathlib

/-! # Irrlicht: embedding and properties of the triangle selector, meshes and tree view

The first part follows `source/Irrlicht/CTriangleSelector.h`.  The header declares the
methods of `CTriangleSelector` and defines one of them inline; the other bodies are in
`CTriangleSelector.cpp`, and each of those operations is modelled from the specification,
as its doc comment says.  The later parts embed code that is given in full:
`include/SSkinMeshBuffer.h`, `include/SMesh.h`, `include/IMeshManipulator.h`,
`source/Irrlicht/COpenGLShaderMaterialRenderer.cpp` and the node methods of
`source/Irrlicht/CGUITreeView.cpp`.

Conventions of the embedding:

* `f32` coordinates are integers.  The selector only stores, copies and compares coordinates;
  all arithmetic on them happens inside matrix transforms, which stay uninterpreted.
* pointers to scene nodes are handles (`Option Nat`, `none` for the null pointer); what a query
  reads through such a pointer comes from a `Scene` passed to the query.
* a pointer to a mesh buffer is the buffer value it points to (`none` for the null pointer).
* `const` methods with `mutable` members become functions returning the new selector.
* methods that change an object return the object afterwards; a tree view node is the tree
  below it, its children being the node objects the child pointers point to.
-/

namespace irr

/-! ## Core types -/

/-- The type core::vector3df, with integer components. -/
structure vector3df where
  X : Int
  Y : Int
  Z : Int
  deriving DecidableEq, Repr

/-- The type core::triangle3df: three points. -/
structure triangle3df where
  pointA : vector3df
  pointB : vector3df
  pointC : vector3df
  deriving DecidableEq, Repr

/-- The type core::line3d<f32>: a segment given by its two end points (the member `end` of
the engine is `endPoint` here, `end` being a keyword). -/
structure line3df where
  start : vector3df
  endPoint : vector3df
  deriving DecidableEq, Repr

/-- The type core::aabbox3df: an axis-aligned box given by its two extreme corners. -/
structure aabbox3df where
  MinEdge : vector3df
  MaxEdge : vector3df
  deriving DecidableEq, Repr

/-- Modelled from the spec: the "canonical invalid/empty box sentinel" of §4.3, written
aabbox3df(1,-1) in the engine headers (aabbox3d.h is not among the sources). -/
def aabbox3df.sentinel : aabbox3df := ⟨⟨1, 1, 1⟩, ⟨-1, -1, -1⟩⟩

/-- Modelled from the spec: a box is valid when its minimum corner does not exceed its maximum
corner on any axis (aabbox3d.h is not among the sources). -/
def aabbox3df.isValid (b : aabbox3df) : Bool :=
  decide (b.MinEdge.X ≤ b.MaxEdge.X) && decide (b.MinEdge.Y ≤ b.MaxEdge.Y) &&
    decide (b.MinEdge.Z ≤ b.MaxEdge.Z)

/-- Modelled from the spec: box against box overlap, boundaries included (aabbox3d.h is not
among the sources). -/
def aabbox3df.intersectsWithBox (b other : aabbox3df) : Bool :=
  decide (b.MinEdge.X ≤ other.MaxEdge.X) && decide (b.MinEdge.Y ≤ other.MaxEdge.Y) &&
    decide (b.MinEdge.Z ≤ other.MaxEdge.Z) && decide (other.MinEdge.X ≤ b.MaxEdge.X) &&
    decide (other.MinEdge.Y ≤ b.MaxEdge.Y) && decide (other.MinEdge.Z ≤ b.MaxEdge.Z)

/-- Modelled from the spec: the box reduced to one point (aabbox3d.h is not among the
sources). -/
def aabbox3df.reset (p : vector3df) : aabbox3df := ⟨p, p⟩

/-- Modelled from the spec: the smallest box holding `b` and the point `p` (aabbox3d.h is not
among the sources). -/
def aabbox3df.addInternalPoint (b : aabbox3df) (p : vector3df) : aabbox3df :=
  ⟨⟨min b.MinEdge.X p.X, min b.MinEdge.Y p.Y, min b.MinEdge.Z p.Z⟩,
   ⟨max b.MaxEdge.X p.X, max b.MaxEdge.Y p.Y, max b.MaxEdge.Z p.Z⟩⟩

/-- The smallest box holding `b` and the three points of `t`. -/
def aabbox3df.addTriangle (b : aabbox3df) (t : triangle3df) : aabbox3df :=
  ((b.addInternalPoint t.pointA).addInternalPoint t.pointB).addInternalPoint t.pointC

/-- Modelled from the spec: the "per-triangle bounding box" of §4.5. -/
def triangle3df.getBoundingBox (t : triangle3df) : aabbox3df :=
  ((aabbox3df.reset t.pointA).addInternalPoint t.pointB).addInternalPoint t.pointC

/-- The type core::matrix4, kept uninterpreted: a matrix is what it does to a point. -/
structure matrix4 where
  transformVect : vector3df → vector3df

/-- The identity matrix (a default-constructed core::matrix4). -/
def matrix4.identity : matrix4 := ⟨fun v => v⟩

/-- The matrix product: `a.mul b` applies `b` first. -/
def matrix4.mul (a b : matrix4) : matrix4 := ⟨fun v => a.transformVect (b.transformVect v)⟩

/-- A matrix applied to the three points of a triangle. -/
def matrix4.transformTriangle (m : matrix4) (t : triangle3df) : triangle3df :=
  ⟨m.transformVect t.pointA, m.transformVect t.pointB, m.transformVect t.pointC⟩

/-! ## Geometry sources (§6 of the spec: what the selector reads from a mesh) -/

/-- The primitive types of a mesh buffer (scene::E_PRIMITIVE_TYPE). -/
inductive E_PRIMITIVE_TYPE where
  | EPT_POINTS
  | EPT_LINE_STRIP
  | EPT_LINE_LOOP
  | EPT_LINES
  | EPT_TRIANGLE_STRIP
  | EPT_TRIANGLE_FAN
  | EPT_TRIANGLES
  | EPT_POINT_SPRITES
  deriving DecidableEq, Repr

/-- Modelled from the spec: the read-only view of a mesh buffer listed in §6
(vertexPositions, indices, primitiveType, material().index); IMeshBuffer.h is not among the
sources. -/
structure IMeshBuffer where
  Positions : List vector3df
  Indices : List Nat
  PrimitiveType : E_PRIMITIVE_TYPE
  MaterialIndex : Nat
  deriving DecidableEq, Repr

/-- Modelled from the spec: the read-only view of a mesh listed in §6 (bufferCount,
buffer(i)); IMesh.h is not among the sources. -/
structure IMesh where
  MeshBuffers : List IMeshBuffer
  deriving DecidableEq, Repr

/-- The position of vertex `i` of a buffer. -/
def IMeshBuffer.getPosition (b : IMeshBuffer) (i : Nat) : vector3df :=
  b.Positions.getD i ⟨0, 0, 0⟩

/-- The index list of a triangle list cut into triangles, three indices at a time; a
remainder of one or two indices gives no triangle. -/
def IMeshBuffer.trianglesOfIndices (b : IMeshBuffer) : List Nat → List triangle3df
  | i0 :: i1 :: i2 :: rest =>
      ⟨b.getPosition i0, b.getPosition i1, b.getPosition i2⟩ :: b.trianglesOfIndices rest
  | _ => []

/-- Modelled from the spec: §4.1, "every buffer's geometry is decomposed into triangles
(respecting each buffer's primitive type — only triangle-list-like buffers contribute)", and
"a buffer whose primitive type is not triangle-based contributes zero triangles". -/
def IMeshBuffer.getTriangles (b : IMeshBuffer) : List triangle3df :=
  if b.PrimitiveType = E_PRIMITIVE_TYPE.EPT_TRIANGLES then b.trianglesOfIndices b.Indices
  else []

/-- What a selector can read through its node pointers at one moment (§6 of the spec:
SceneNode.worldTransform(), AnimatedNode.currentFrameNumber(),
AnimatedNode.currentFrameMesh()). -/
structure SceneNodeState where
  worldTransform : matrix4
  currentFrameNumber : Nat
  currentFrameMesh : Option IMesh

/-- The scene at one moment: the state of every node, by handle. -/
abbrev Scene := Nat → SceneNodeState

/-! ## The selector (CTriangleSelector.h) -/

/-- The struct CTriangleSelector::SBufferTriangleRange. -/
structure SBufferTriangleRange where
  /-- First index in Triangles array -/
  RangeStart : Nat
  /-- Number of elements in Triangles array -/
  RangeSize : Nat
  /-- Meshbuffer from which the triangles are from; none when a single range is used for all
  buffers -/
  MeshBuffer : Option IMeshBuffer
  /-- Index of selected material in the SceneNode -/
  MaterialIndex : Nat
  deriving DecidableEq, Repr

/-- The default constructor SBufferTriangleRange(): all members zero. -/
def SBufferTriangleRange.default : SBufferTriangleRange := ⟨0, 0, none, 0⟩

/-- The members of class CTriangleSelector, in the order of the header.  Triangles,
BoundingBox and LastMeshFrame are the `mutable` ones. -/
structure CTriangleSelector where
  SingleBufferRange : SBufferTriangleRange
  BufferRanges : List SBufferTriangleRange
  SceneNode : Option Nat
  Triangles : List triangle3df
  BoundingBox : aabbox3df
  AnimatedNode : Option Nat
  LastMeshFrame : Nat
  deriving DecidableEq, Repr

/-- The struct SCollisionTriangleRange of ITriangleSelector.h, as far as the spec describes
it (§4.5: range start and size in the output buffer, source buffer, material index) together
with the scene node of the selector that produced it. -/
structure SCollisionTriangleRange where
  RangeStart : Nat
  RangeSize : Nat
  SceneNode : Option Nat
  MeshBuffer : Option IMeshBuffer
  MaterialIndex : Nat
  deriving DecidableEq, Repr

/-! ## Geometry source adapter (§4.1 of the spec) -/

/-- What the adapter hands to the selector: the triangle sequence and the two range members. -/
structure Extraction where
  Triangles : List triangle3df
  SingleBufferRange : SBufferTriangleRange
  BufferRanges : List SBufferTriangleRange
  deriving DecidableEq, Repr

/-- The triangles of all buffers of a mesh, concatenated in buffer order. -/
def IMesh.getTriangles (mesh : IMesh) : List triangle3df :=
  (mesh.MeshBuffers.map IMeshBuffer.getTriangles).flatten

/-- One range per buffer, in buffer order; `start` is the number of triangles already
extracted. -/
def bufferRangesFrom (start : Nat) : List IMeshBuffer → List SBufferTriangleRange
  | [] => []
  | b :: bs =>
      ⟨start, b.getTriangles.length, some b, b.MaterialIndex⟩ ::
        bufferRangesFrom (start + b.getTriangles.length) bs

/-- Modelled from the spec: the body of CTriangleSelector::createFromMesh (its declaration is
in the header, its body in CTriangleSelector.cpp).  §4.1: without separation all buffers are
"concatenated into one range spanning the whole sequence, sourceBuffer=none,
materialIndex=0"; with separation there is "one range per mesh buffer, in buffer order, each
carrying that buffer's material index and a reference to the buffer". -/
def createFromMesh (mesh : IMesh) (createBufferRanges : Bool) : Extraction :=
  if createBufferRanges then
    ⟨mesh.getTriangles, SBufferTriangleRange.default, bufferRangesFrom 0 mesh.MeshBuffers⟩
  else
    ⟨mesh.getTriangles, ⟨0, mesh.getTriangles.length, none, 0⟩, []⟩

/-- Modelled from the spec: §4.1 "Failure: a null mesh/buffer/node yields an empty triangle
sequence and empty range table (not an error)"; a mesh that is there goes through
createFromMesh. -/
def extractMesh (mesh : Option IMesh) (separateMeshbuffers : Bool) : Extraction :=
  match mesh with
  | none => ⟨[], SBufferTriangleRange.default, []⟩
  | some m => createFromMesh m separateMeshbuffers

/-- Modelled from the spec: the body of CTriangleSelector::updateBoundingBox (declared in the
header).  §4.3: "recompute as the union of all triangle vertices: if the triangle sequence is
empty the cache holds the canonical invalid/empty box sentinel". -/
def updateBoundingBox : List triangle3df → aabbox3df
  | [] => aabbox3df.sentinel
  | t :: ts => ts.foldl aabbox3df.addTriangle t.getBoundingBox

/-! ## Constructors -/

namespace CTriangleSelector

/-- Modelled from the spec: the constructor CTriangleSelector(ISceneNode* node), which has no
geometry source: nothing is extracted. -/
def mkNode (node : Option Nat) : CTriangleSelector :=
  { SingleBufferRange := SBufferTriangleRange.default, BufferRanges := [], SceneNode := node,
    Triangles := [], BoundingBox := updateBoundingBox [], AnimatedNode := none,
    LastMeshFrame := 0 }

/-- Modelled from the spec: the constructor
CTriangleSelector(const IMesh* mesh, ISceneNode* node, bool separateMeshbuffers), §4.1 "from a
full mesh". -/
def mkMesh (mesh : Option IMesh) (node : Option Nat) (separateMeshbuffers : Bool) :
    CTriangleSelector :=
  let e := extractMesh mesh separateMeshbuffers
  { SingleBufferRange := e.SingleBufferRange, BufferRanges := e.BufferRanges,
    SceneNode := node, Triangles := e.Triangles, BoundingBox := updateBoundingBox e.Triangles,
    AnimatedNode := none, LastMeshFrame := 0 }

/-- Modelled from the spec: the constructor
CTriangleSelector(const IMeshBuffer* meshBuffer, u32 materialIndex, ISceneNode* node), §4.1
"from a single mesh buffer: exactly one range, sourceBuffer = that buffer, materialIndex as
supplied by the caller"; a null buffer gives the empty selector. -/
def mkMeshBuffer (meshBuffer : Option IMeshBuffer) (materialIndex : Nat) (node : Option Nat) :
    CTriangleSelector :=
  match meshBuffer with
  | none => mkNode node
  | some b =>
    { SingleBufferRange := ⟨0, b.getTriangles.length, some b, materialIndex⟩,
      BufferRanges := [], SceneNode := node, Triangles := b.getTriangles,
      BoundingBox := updateBoundingBox b.getTriangles, AnimatedNode := none,
      LastMeshFrame := 0 }

/-- Modelled from the spec: the constructor
CTriangleSelector(IAnimatedMeshSceneNode* node, bool separateMeshbuffers), §4.1 "from an
animated node: triangles are extracted from the mesh representing the current animation
frame ... with the separateMeshbuffers flag forwarded"; the frame extracted from is the
last-observed frame of §4.4.  A null node gives the empty selector. -/
def mkAnimated (scene : Scene) (node : Option Nat) (separateMeshbuffers : Bool) :
    CTriangleSelector :=
  match node with
  | none => mkNode none
  | some n =>
    let e := extractMesh (scene n).currentFrameMesh separateMeshbuffers
    { SingleBufferRange := e.SingleBufferRange, BufferRanges := e.BufferRanges,
      SceneNode := some n, Triangles := e.Triangles,
      BoundingBox := updateBoundingBox e.Triangles, AnimatedNode := some n,
      LastMeshFrame := (scene n).currentFrameNumber }

end CTriangleSelector

/-- Modelled from the spec: the eight corners of a box, numbered as the engine numbers them
(bit 0 of the number picks the Y side, bit 1 the Z side, bit 2 the X side); aabbox3d.h is not
among the sources. -/
def aabbox3df.getEdge (b : aabbox3df) : Nat → vector3df
  | 0 => ⟨b.MinEdge.X, b.MinEdge.Y, b.MinEdge.Z⟩
  | 1 => ⟨b.MinEdge.X, b.MaxEdge.Y, b.MinEdge.Z⟩
  | 2 => ⟨b.MinEdge.X, b.MinEdge.Y, b.MaxEdge.Z⟩
  | 3 => ⟨b.MinEdge.X, b.MaxEdge.Y, b.MaxEdge.Z⟩
  | 4 => ⟨b.MaxEdge.X, b.MinEdge.Y, b.MinEdge.Z⟩
  | 5 => ⟨b.MaxEdge.X, b.MaxEdge.Y, b.MinEdge.Z⟩
  | 6 => ⟨b.MaxEdge.X, b.MinEdge.Y, b.MaxEdge.Z⟩
  | _ => ⟨b.MaxEdge.X, b.MaxEdge.Y, b.MaxEdge.Z⟩

/-- Modelled from the spec: §4.1 "from a bounding box alone: synthesize exactly 12 triangles
forming the box's 6 faces".  Two triangles per face, split along a diagonal, in the order
X-min, Z-max, X-max, Z-min, Y-max, Y-min. -/
def aabbox3df.getTriangles (b : aabbox3df) : List triangle3df :=
  [⟨b.getEdge 3, b.getEdge 0, b.getEdge 2⟩, ⟨b.getEdge 3, b.getEdge 1, b.getEdge 0⟩,
   ⟨b.getEdge 3, b.getEdge 2, b.getEdge 7⟩, ⟨b.getEdge 7, b.getEdge 2, b.getEdge 6⟩,
   ⟨b.getEdge 7, b.getEdge 6, b.getEdge 4⟩, ⟨b.getEdge 5, b.getEdge 7, b.getEdge 4⟩,
   ⟨b.getEdge 5, b.getEdge 4, b.getEdge 0⟩, ⟨b.getEdge 5, b.getEdge 0, b.getEdge 1⟩,
   ⟨b.getEdge 1, b.getEdge 3, b.getEdge 7⟩, ⟨b.getEdge 1, b.getEdge 7, b.getEdge 5⟩,
   ⟨b.getEdge 0, b.getEdge 6, b.getEdge 2⟩, ⟨b.getEdge 0, b.getEdge 4, b.getEdge 6⟩]

/-- Modelled from the spec: the constructor
CTriangleSelector(const core::aabbox3d<f32>& box, ISceneNode* node), §4.1 "from a bounding
box alone: synthesize exactly 12 triangles forming the box's 6 faces, with a single synthetic
range". -/
def CTriangleSelector.mkBox (box : aabbox3df) (node : Option Nat) : CTriangleSelector :=
  { SingleBufferRange := ⟨0, box.getTriangles.length, none, 0⟩, BufferRanges := [],
    SceneNode := node, Triangles := box.getTriangles,
    BoundingBox := updateBoundingBox box.getTriangles, AnimatedNode := none,
    LastMeshFrame := 0 }

/-! ## Range table, staleness protocol and queries -/

namespace CTriangleSelector

/-- Modelled from the spec: the range table of §3, read off the two range members of the
header.  Per-buffer ranges are the table when there are any; otherwise the table is the single
range, which is listed only when it holds a triangle (§4.1: a null source has an empty range
table). -/
def rangeTable (s : CTriangleSelector) : List SBufferTriangleRange :=
  if s.BufferRanges.isEmpty then
    (if s.SingleBufferRange.RangeSize = 0 then [] else [s.SingleBufferRange])
  else s.BufferRanges

/-- Modelled from the spec: the body of CTriangleSelector::getTriangleCount, "amount of all
available triangles in this selector" (declared in the header, result type s32). -/
def getTriangleCount (s : CTriangleSelector) : Int := s.Triangles.length

/-- The inline body in the header: `{ return SceneNode; }`. -/
def getSceneNodeForTriangle (s : CTriangleSelector) (_triangleIndex : Nat) : Option Nat :=
  s.SceneNode

/-- Modelled from the spec: the body of CTriangleSelector::getSelectorCount, §4.2
"getSelectorCount() returns 1 (a leaf selector is its own single logical unit)". -/
def getSelectorCount (_s : CTriangleSelector) : Nat := 1

/-- Modelled from the spec: the triangles a rebuild extracts from the mesh the node shows.
§4.4: the rebuild re-runs the extraction "using the node's current frame mesh", and "if the
animated node no longer exposes a valid current-frame mesh ... the rebuild produces an empty
triangle sequence". -/
def extractTriangles (mesh : Option IMesh) : List triangle3df :=
  match mesh with
  | none => []
  | some m => m.getTriangles

/-- Modelled from the spec: the body of CTriangleSelector::updateFromMesh ("Update when the
mesh has changed", declared in the header).  The triangles are replaced wholesale by those of
the mesh (§3) and the bounding box is recomputed from them (§4.3).  The header declares the
method const, and of the members only Triangles, BoundingBox and LastMeshFrame are
`mutable`: the range members SingleBufferRange and BufferRanges stay as the constructor left
them (§3: "range table is fixed at construction"). -/
def updateFromMesh (mesh : Option IMesh) (s : CTriangleSelector) : CTriangleSelector :=
  { s with
    Triangles := extractTriangles mesh,
    BoundingBox := updateBoundingBox (extractTriangles mesh) }

/-- Modelled from the spec: the body of CTriangleSelector::update (declared in the header,
const: "will only have an effect if it was built from an animated mesh and that mesh's frame
has changed since the last time it was updated").  §4.4: "compare current frame to
lastObservedFrame; if different, re-run the Geometry Source Adapter (§4.1) using the node's
current frame mesh ... and record the new frame number".  Being const, it writes the
`mutable` members only (see updateFromMesh). -/
def update (scene : Scene) (s : CTriangleSelector) : CTriangleSelector :=
  match s.AnimatedNode with
  | none => s
  | some n =>
    if (scene n).currentFrameNumber = s.LastMeshFrame then s
    else
      { updateFromMesh (scene n).currentFrameMesh s with
        LastMeshFrame := (scene n).currentFrameNumber }

/-- Modelled from the spec: the transform rule of §4.5.  A supplied matrix is the start
(else the identity); with useNodeTransform and a scene node, the node's world transform is
composed in. -/
def queryTransform (scene : Scene) (s : CTriangleSelector) (transform : Option matrix4)
    (useNodeTransform : Bool) : matrix4 :=
  let mat := transform.getD matrix4.identity
  match s.SceneNode with
  | none => mat
  | some n => if useNodeTransform then mat.mul (scene n).worldTransform else mat

end CTriangleSelector

/-- The caller's triangle memory, by index from the pointer passed to the query: it reaches
beyond the arraySize entries the caller owns, so that an overrun shows. -/
abbrev TriangleBuffer := Nat → triangle3df

/-- The triangles `ts` stored at indices 0, 1, ... of `buf`; every other index keeps what
it held. -/
def writeTriangles (buf : TriangleBuffer) (ts : List triangle3df) : TriangleBuffer :=
  fun i => if h : i < ts.length then ts.get ⟨i, h⟩ else buf i

/-- A list paired with the positions of its elements, counted from `n`. -/
def indexFrom {α : Type} (n : Nat) : List α → List (Nat × α)
  | [] => []
  | a :: as => (n, a) :: indexFrom (n + 1) as

/-- What a query leaves behind: the caller's triangle memory, the out-parameter
outTriangleCount (an s32), and the caller's outTriangleInfo array when one was passed. -/
structure QueryOutput where
  triangles : TriangleBuffer
  outTriangleCount : Int
  outTriangleInfo : Option (List SCollisionTriangleRange)

namespace CTriangleSelector

/-- Modelled from the spec: the provenance output of §4.5, "for each distinct range touched
by at least one emitted triangle, a compact range-consumed descriptor (range start/size
adjusted to the output buffer's indices, source buffer reference, material index), preserving
range order".  `written` are the source indices of the emitted triangles, in output order. -/
def rangeDescriptors (s : CTriangleSelector) (written : List Nat) :
    List SCollisionTriangleRange :=
  s.rangeTable.filterMap fun r =>
    let inRange := written.filter fun i => decide (r.RangeStart ≤ i ∧ i < r.RangeStart + r.RangeSize)
    let before := written.filter fun i => decide (i < r.RangeStart)
    if inRange.isEmpty then none
    else some ⟨before.length, inRange.length, s.SceneNode, r.MeshBuffer, r.MaterialIndex⟩

/-- Modelled from the spec: the output contract shared by the three queries (§4.5): "the
engine writes up to arraySize matching triangles (silently truncating — not erroring — if
more matches exist than capacity) and reports the actual count written via an
out-parameter".  `found` are the matching triangles with their index in Triangles, in
sequence order; a negative arraySize leaves room for nothing. -/
def emit (s : CTriangleSelector) (found : List (Nat × triangle3df))
    (triangles : TriangleBuffer) (arraySize : Int)
    (outTriangleInfo : Option (List SCollisionTriangleRange)) : QueryOutput :=
  let written := found.take arraySize.toNat
  { triangles := writeTriangles triangles (written.map Prod.snd),
    outTriangleCount := written.length,
    outTriangleInfo := outTriangleInfo.map fun info =>
      info ++ s.rangeDescriptors (written.map Prod.fst) }

/-- Modelled from the spec: the body of the unrestricted CTriangleSelector::getTriangles
("Gets all triangles", declared in the header).  §4.5: after the freshness check it "returns
every triangle", transformed by the transform rule. -/
def getTriangles (scene : Scene) (s : CTriangleSelector) (triangles : TriangleBuffer)
    (arraySize : Int) (transform : Option matrix4) (useNodeTransform : Bool)
    (outTriangleInfo : Option (List SCollisionTriangleRange)) :
    CTriangleSelector × QueryOutput :=
  let s1 := s.update scene
  let mat := queryTransform scene s1 transform useNodeTransform
  (s1, emit s1 (indexFrom 0 (s1.Triangles.map mat.transformTriangle)) triangles arraySize
    outTriangleInfo)

/-- Modelled from the spec: the body of the box-filtered CTriangleSelector::getTriangles
("Gets all triangles which lie within a specific bounding box", declared in the header).
§4.5: it "first rejects entirely if the cached global bounding box does not intersect the
query box; otherwise tests each triangle's own per-triangle bounding box against the query
box (after applying the same transform rule as above) and includes it only on overlap". -/
def getTrianglesBox (scene : Scene) (s : CTriangleSelector) (triangles : TriangleBuffer)
    (arraySize : Int) (box : aabbox3df) (transform : Option matrix4) (useNodeTransform : Bool)
    (outTriangleInfo : Option (List SCollisionTriangleRange)) :
    CTriangleSelector × QueryOutput :=
  let s1 := s.update scene
  if s1.BoundingBox.intersectsWithBox box then
    let mat := queryTransform scene s1 transform useNodeTransform
    let found := (indexFrom 0 (s1.Triangles.map mat.transformTriangle)).filter fun p =>
      p.2.getBoundingBox.intersectsWithBox box
    (s1, emit s1 found triangles arraySize outTriangleInfo)
  else
    (s1, { triangles := triangles, outTriangleCount := 0, outTriangleInfo := outTriangleInfo })

end CTriangleSelector

/-- The two geometric tests of the segment query, which the spec names without defining them
("a box-vs-segment trivial check", "an exact triangle-vs-segment proximity/intersection
test"): they are arguments of the query. -/
structure SegmentTests where
  boxIntersectsWithLine : aabbox3df → line3df → Bool
  triangleHitsLine : triangle3df → line3df → Bool

namespace CTriangleSelector

/-- Modelled from the spec: the body of the segment-filtered CTriangleSelector::getTriangles
("Gets all triangles which have or may have contact with a 3d line", declared in the header).
§4.5: it "rejects entirely if the global bounding box does not intersect the segment;
otherwise tests each triangle against the segment using a box-vs-segment trivial check
followed by an exact triangle-vs-segment proximity/intersection test, in triangle sequence
order". -/
def getTrianglesLine (tests : SegmentTests) (scene : Scene) (s : CTriangleSelector)
    (triangles : TriangleBuffer) (arraySize : Int) (line : line3df)
    (transform : Option matrix4) (useNodeTransform : Bool)
    (outTriangleInfo : Option (List SCollisionTriangleRange)) :
    CTriangleSelector × QueryOutput :=
  let s1 := s.update scene
  if tests.boxIntersectsWithLine s1.BoundingBox line then
    let mat := queryTransform scene s1 transform useNodeTransform
    let found := (indexFrom 0 (s1.Triangles.map mat.transformTriangle)).filter fun p =>
      tests.boxIntersectsWithLine p.2.getBoundingBox line && tests.triangleHitsLine p.2 line
    (s1, emit s1 found triangles arraySize outTriangleInfo)
  else
    (s1, { triangles := triangles, outTriangleCount := 0, outTriangleInfo := outTriangleInfo })

end CTriangleSelector

/-! ## Sequences of queries -/

/-- One call of a public query, with its arguments. -/
inductive Query where
  | all (triangles : TriangleBuffer) (arraySize : Int) (transform : Option matrix4)
      (useNodeTransform : Bool) (outTriangleInfo : Option (List SCollisionTriangleRange))
  | box (triangles : TriangleBuffer) (arraySize : Int) (box : aabbox3df)
      (transform : Option matrix4) (useNodeTransform : Bool)
      (outTriangleInfo : Option (List SCollisionTriangleRange))
  | line (triangles : TriangleBuffer) (arraySize : Int) (line : line3df)
      (transform : Option matrix4) (useNodeTransform : Bool)
      (outTriangleInfo : Option (List SCollisionTriangleRange))

/-- A query run on a selector in a scene. -/
def Query.run (tests : SegmentTests) (scene : Scene) (s : CTriangleSelector) :
    Query → CTriangleSelector × QueryOutput
  | Query.all triangles arraySize transform useNodeTransform outTriangleInfo =>
      s.getTriangles scene triangles arraySize transform useNodeTransform outTriangleInfo
  | Query.box triangles arraySize queryBox transform useNodeTransform outTriangleInfo =>
      s.getTrianglesBox scene triangles arraySize queryBox transform useNodeTransform
        outTriangleInfo
  | Query.line triangles arraySize queryLine transform useNodeTransform outTriangleInfo =>
      s.getTrianglesLine tests scene triangles arraySize queryLine transform useNodeTransform
        outTriangleInfo

/-- The selector after a sequence of queries, each made in the scene of its moment. -/
def runQueries (tests : SegmentTests) (s : CTriangleSelector) :
    List (Scene × Query) → CTriangleSelector
  | [] => s
  | (scene, q) :: rest => runQueries tests (q.run tests scene s).1 rest

/-- The number of triangles the first `i` buffers of a mesh contribute. -/
def IMesh.triangleCountBefore (mesh : IMesh) (i : Nat) : Nat :=
  ((mesh.MeshBuffers.take i).map fun b => b.getTriangles.length).sum

/-- The three axes. -/
inductive Axis where
  | X
  | Y
  | Z
  deriving DecidableEq, Repr

/-- The component of a point along an axis. -/
def vector3df.coord (v : vector3df) : Axis → Int
  | Axis.X => v.X
  | Axis.Y => v.Y
  | Axis.Z => v.Z

/-- The three points of a triangle. -/
def triangle3df.points (t : triangle3df) : List vector3df := [t.pointA, t.pointB, t.pointC]

/-- The cross product of the edge vectors from pointA; it is zero exactly when the three
points lie on one line (or coincide). -/
def triangle3df.crossProduct (t : triangle3df) : vector3df :=
  let ux := t.pointB.X - t.pointA.X
  let uy := t.pointB.Y - t.pointA.Y
  let uz := t.pointB.Z - t.pointA.Z
  let vx := t.pointC.X - t.pointA.X
  let vy := t.pointC.Y - t.pointA.Y
  let vz := t.pointC.Z - t.pointA.Z
  ⟨uy * vz - uz * vy, uz * vx - ux * vz, ux * vy - uy * vx⟩

/-- A triangle is degenerate when it has no area. -/
def triangle3df.isDegenerate (t : triangle3df) : Bool :=
  decide (t.crossProduct = ⟨0, 0, 0⟩)

/-- A point is a corner of the box: each component is that of MinEdge or that of MaxEdge. -/
def aabbox3df.isCorner (b : aabbox3df) (p : vector3df) : Bool :=
  (decide (p.X = b.MinEdge.X) || decide (p.X = b.MaxEdge.X)) &&
  (decide (p.Y = b.MinEdge.Y) || decide (p.Y = b.MaxEdge.Y)) &&
  (decide (p.Z = b.MinEdge.Z) || decide (p.Z = b.MaxEdge.Z))

/-- The plane coordinate of a face: the face across `axis` on the MaxEdge side when `high`,
on the MinEdge side otherwise. -/
def aabbox3df.faceCoord (b : aabbox3df) (axis : Axis) (high : Bool) : Int :=
  if high then b.MaxEdge.coord axis else b.MinEdge.coord axis

/-- The four corners of a face, among the eight corners of the box. -/
def aabbox3df.faceCorners (b : aabbox3df) (axis : Axis) (high : Bool) : List vector3df :=
  ((List.range 8).map b.getEdge).filter fun p => decide (p.coord axis = b.faceCoord axis high)

/-- A triangle lies in the plane of a face. -/
def triangle3df.onFace (t : triangle3df) (b : aabbox3df) (axis : Axis) (high : Bool) : Bool :=
  t.points.all fun p => decide (p.coord axis = b.faceCoord axis high)

/-- Two corners of one face are opposite: they differ along both axes of the face. -/
def oppositeOnFace (axis : Axis) (p q : vector3df) : Bool :=
  [Axis.X, Axis.Y, Axis.Z].all fun a => decide (a = axis) || decide (p.coord a ≠ q.coord a)

/-- Two triangles make up a face: both lie in its plane, every corner of the face is a point
of one of them, and they meet along a diagonal of the face (two opposite corners belong to
both), so that they cover the face without overlap. -/
def aabbox3df.splitsFace (b : aabbox3df) (axis : Axis) (high : Bool) (t1 t2 : triangle3df) :
    Bool :=
  t1.onFace b axis high && t2.onFace b axis high &&
  ((b.faceCorners axis high).all fun p => t1.points.contains p || t2.points.contains p) &&
  (t1.points.any fun p => t1.points.any fun q =>
    t2.points.contains p && t2.points.contains q && oppositeOnFace axis p q)

/-- The triangles of a list that lie in the plane of a face. -/
def trianglesOnFace (b : aabbox3df) (axis : Axis) (high : Bool) (ts : List triangle3df) :
    List triangle3df :=
  ts.filter fun t => t.onFace b axis high

/-- The six faces of a box. -/
def allFaces : List (Axis × Bool) :=
  [(Axis.X, false), (Axis.X, true), (Axis.Y, false), (Axis.Y, true), (Axis.Z, false),
   (Axis.Z, true)]

/-- Every component of every point of the triangle lies between `lo` and `hi`. -/
def triangle3df.componentsWithin (t : triangle3df) (lo hi : Int) : Bool :=
  t.points.all fun p =>
    decide (lo ≤ p.X ∧ p.X ≤ hi ∧ lo ≤ p.Y ∧ p.Y ≤ hi ∧ lo ≤ p.Z ∧ p.Z ≤ hi)

end irr

namespace irr

end irr

/-! ## Sample data -/

namespace irr

/-- The box [(0,0,0),(1,1,1)] of Scenario A. -/
def unitBox : aabbox3df := ⟨⟨0, 0, 0⟩, ⟨1, 1, 1⟩⟩

/-- A triangle-list buffer with four triangles over the corners of a unit square. -/
def sampleBuffer4 (materialIndex : Nat) : IMeshBuffer :=
  ⟨[⟨0, 0, 0⟩, ⟨1, 0, 0⟩, ⟨0, 1, 0⟩, ⟨1, 1, 0⟩], [0, 1, 2, 1, 2, 3, 0, 1, 3, 0, 2, 3],
   E_PRIMITIVE_TYPE.EPT_TRIANGLES, materialIndex⟩

/-- A triangle-list buffer with three triangles. -/
def sampleBuffer3 (materialIndex : Nat) : IMeshBuffer :=
  ⟨[⟨0, 0, 0⟩, ⟨1, 0, 0⟩, ⟨0, 1, 0⟩, ⟨1, 1, 5⟩], [0, 1, 2, 1, 2, 3, 0, 1, 3],
   E_PRIMITIVE_TYPE.EPT_TRIANGLES, materialIndex⟩

/-- The mesh of Scenario B: four triangles with material 2, then three with material 5. -/
def sampleMesh : IMesh := ⟨[sampleBuffer4 2, sampleBuffer3 5]⟩

/-- A one-triangle mesh whose pose depends on the frame: the apex sits at height
`frame + 1`. -/
def sampleFrameMesh (frame : Nat) : IMesh :=
  ⟨[⟨[⟨0, 0, 0⟩, ⟨1, 0, 0⟩, ⟨0, (frame : Int) + 1, 0⟩], [0, 1, 2],
     E_PRIMITIVE_TYPE.EPT_TRIANGLES, 0⟩]⟩

/-- An animation: the pose of every frame. -/
def sampleAnimation (frame : Nat) : Option IMesh := some (sampleFrameMesh frame)

/-- A scene in which every node is untransformed and shows `frame` of the sample animation. -/
def sampleScene (frame : Nat) : Scene :=
  fun _ => ⟨matrix4.identity, frame, sampleAnimation frame⟩

/-- A scene in which every node is untransformed, is at `frame` and shows `mesh` as its
current-frame mesh (`none`: the node has no valid mesh). -/
def sampleSceneWith (frame : Nat) (mesh : Option IMesh) : Scene :=
  fun _ => ⟨matrix4.identity, frame, mesh⟩

/-- Caller memory holding the same marker triangle everywhere. -/
def blankBuffer : TriangleBuffer := fun _ => ⟨⟨9, 9, 9⟩, ⟨9, 9, 9⟩, ⟨9, 9, 9⟩⟩

/-- Segment tests that let everything through. -/
def sampleTests : SegmentTests := ⟨fun _ _ => true, fun _ _ => true⟩

end irr

/-! ## Mesh buffers and meshes (SSkinMeshBuffer.h, SMesh.h) -/

namespace irr

/-- The type core::vector2df, with integer components. -/
structure vector2df where
  X : Int
  Y : Int
  deriving DecidableEq, Repr

/-- The vertex type video::S3DVertex with the members the sources use (Pos, Normal, Color,
TCoords); a colour is a number. -/
structure S3DVertex where
  Pos : vector3df
  Normal : vector3df
  Color : Nat
  TCoords : vector2df
  deriving DecidableEq, Repr

/-- The vertex type video::S3DVertex2TCoords: a standard vertex with a second set of texture
coordinates. -/
structure S3DVertex2TCoords where
  Pos : vector3df
  Normal : vector3df
  Color : Nat
  TCoords : vector2df
  TCoords2 : vector2df
  deriving DecidableEq, Repr

/-- The vertex type video::S3DVertexTangents: a standard vertex with tangent and binormal. -/
structure S3DVertexTangents where
  Pos : vector3df
  Normal : vector3df
  Color : Nat
  TCoords : vector2df
  Tangent : vector3df
  Binormal : vector3df
  deriving DecidableEq, Repr

/-- The enumeration video::E_VERTEX_TYPE. -/
inductive E_VERTEX_TYPE where
  | EVT_STANDARD
  | EVT_2TCOORDS
  | EVT_TANGENTS
  deriving DecidableEq, Repr

/-- The enumeration scene::E_HARDWARE_MAPPING. -/
inductive E_HARDWARE_MAPPING where
  | EHM_NEVER
  | EHM_STATIC
  | EHM_DYNAMIC
  | EHM_STREAM
  deriving DecidableEq, Repr

/-- The enumeration video::E_MATERIAL_TYPE as the sources tell its values apart: the nine
constants named in the switch of COpenGLShaderMaterialRenderer.cpp, and every other value
(built-in or registered by the user) by its number. -/
inductive E_MATERIAL_TYPE where
  | EMT_TRANSPARENT_VERTEX_ALPHA
  | EMT_TRANSPARENT_ALPHA_CHANNEL
  | EMT_NORMAL_MAP_TRANSPARENT_VERTEX_ALPHA
  | EMT_PARALLAX_MAP_TRANSPARENT_VERTEX_ALPHA
  | EMT_TRANSPARENT_ADD_COLOR
  | EMT_NORMAL_MAP_TRANSPARENT_ADD_COLOR
  | EMT_PARALLAX_MAP_TRANSPARENT_ADD_COLOR
  | EMT_ONETEXTURE_BLEND
  | EMT_TRANSPARENT_ALPHA_CHANNEL_REF
  | other (value : Int)
  deriving DecidableEq, Repr

/-- The struct video::SMaterial with the members the sources read (MaterialType,
MaterialTypeParam, FogEnable); two materials are equal (operator==) when their members
are. -/
structure SMaterial where
  MaterialType : E_MATERIAL_TYPE
  MaterialTypeParam : Int
  FogEnable : Bool
  deriving DecidableEq, Repr

/-- A default-constructed video::SMaterial. -/
def SMaterial.default : SMaterial := ⟨E_MATERIAL_TYPE.other 0, 0, false⟩

/-- The values of the clone flags, an enumeration declared in IMeshBuffer.h. -/
structure ECloneFlags where
  ECF_VERTICES : Int
  ECF_INDICES : Int
  deriving DecidableEq, Repr

/-- The members of struct SSkinMeshBuffer, in the order of the header.  Indices are u16. -/
structure SSkinMeshBuffer where
  Vertices_Tangents : List S3DVertexTangents
  Vertices_2TCoords : List S3DVertex2TCoords
  Vertices_Standard : List S3DVertex
  Indices : List Nat
  ChangedID_Vertex : Nat
  ChangedID_Index : Nat
  Transformation : matrix4
  Material : SMaterial
  VertexType : E_VERTEX_TYPE
  BoundingBox : aabbox3df
  PrimitiveType : E_PRIMITIVE_TYPE
  MappingHint_Vertex : E_HARDWARE_MAPPING
  MappingHint_Index : E_HARDWARE_MAPPING
  BoundingBoxNeedsRecalculated : Bool

namespace SSkinMeshBuffer

/-- The constructor SSkinMeshBuffer(video::E_VERTEX_TYPE vt): the member initialisers of
the header; the arrays start empty, the matrix as the identity, the material as the default
material. -/
def construct (vt : E_VERTEX_TYPE) : SSkinMeshBuffer :=
  { Vertices_Tangents := [], Vertices_2TCoords := [], Vertices_Standard := [], Indices := [],
    ChangedID_Vertex := 1, ChangedID_Index := 1, Transformation := matrix4.identity,
    Material := SMaterial.default, VertexType := vt, BoundingBox := aabbox3df.sentinel,
    PrimitiveType := E_PRIMITIVE_TYPE.EPT_TRIANGLES,
    MappingHint_Vertex := E_HARDWARE_MAPPING.EHM_NEVER,
    MappingHint_Index := E_HARDWARE_MAPPING.EHM_NEVER, BoundingBoxNeedsRecalculated := true }

/-- The method getMaterial(). -/
def getMaterial (b : SSkinMeshBuffer) : SMaterial := b.Material

/-- The method getVertexType(). -/
def getVertexType (b : SSkinMeshBuffer) : E_VERTEX_TYPE := b.VertexType

/-- The method getVertexCount(): the size of the array the vertex type selects. -/
def getVertexCount (b : SSkinMeshBuffer) : Nat :=
  match b.VertexType with
  | E_VERTEX_TYPE.EVT_2TCOORDS => b.Vertices_2TCoords.length
  | E_VERTEX_TYPE.EVT_TANGENTS => b.Vertices_Tangents.length
  | E_VERTEX_TYPE.EVT_STANDARD => b.Vertices_Standard.length

/-- The method getIndexCount(). -/
def getIndexCount (b : SSkinMeshBuffer) : Nat := b.Indices.length

/-- The method getBoundingBox(). -/
def getBoundingBox (b : SSkinMeshBuffer) : aabbox3df := b.BoundingBox

/-- The method setBoundingBox(box). -/
def setBoundingBox (b : SSkinMeshBuffer) (box : aabbox3df) : SSkinMeshBuffer :=
  { b with BoundingBox := box }

/-- The method getPosition(i): the position of vertex `i` of the array the vertex type
selects (the origin stands for an index outside the array). -/
def getPosition (b : SSkinMeshBuffer) (i : Nat) : vector3df :=
  match b.VertexType with
  | E_VERTEX_TYPE.EVT_2TCOORDS => ((b.Vertices_2TCoords.map fun v => v.Pos).getD i ⟨0, 0, 0⟩)
  | E_VERTEX_TYPE.EVT_TANGENTS => ((b.Vertices_Tangents.map fun v => v.Pos).getD i ⟨0, 0, 0⟩)
  | E_VERTEX_TYPE.EVT_STANDARD => ((b.Vertices_Standard.map fun v => v.Pos).getD i ⟨0, 0, 0⟩)

/-- The method append(vertices, numVertices, indices, numIndices, updateBoundingBox): its
body in the header is empty, `{}`. -/
def append (b : SSkinMeshBuffer) (_vertices : List S3DVertex) (_numVertices : Nat)
    (_indices : List Nat) (_numIndices : Nat) (_updateBoundingBox : Bool) : SSkinMeshBuffer :=
  b

/-- The method append(other, updateBoundingBox): its body in the header is empty, `{}`. -/
def appendBuffer (b : SSkinMeshBuffer) (_other : Option SSkinMeshBuffer)
    (_updateBoundingBox : Bool) : SSkinMeshBuffer :=
  b

/-- The test `cloneFlags & flag` of C: some bit of `flag` is set in `cloneFlags`. -/
def flagSet (cloneFlags flag : Int) : Bool := decide (Int.land cloneFlags flag ≠ 0)

/-- The method createClone(cloneFlags): a new buffer of the same vertex type, filled as the
body in the header fills it.  The values of the flags ECF_VERTICES and ECF_INDICES are
declared in IMeshBuffer.h and come in as `flags`. -/
def createClone (flags : ECloneFlags) (b : SSkinMeshBuffer) (cloneFlags : Int) :
    SSkinMeshBuffer :=
  let clone := construct b.VertexType
  let clone :=
    if flagSet cloneFlags flags.ECF_VERTICES then
      { clone with
        Vertices_Tangents := b.Vertices_Tangents, Vertices_2TCoords := b.Vertices_2TCoords,
        Vertices_Standard := b.Vertices_Standard, BoundingBox := b.BoundingBox,
        BoundingBoxNeedsRecalculated := b.BoundingBoxNeedsRecalculated }
    else clone
  let clone :=
    if flagSet cloneFlags flags.ECF_INDICES then { clone with Indices := b.Indices } else clone
  { clone with
    Transformation := b.Transformation, Material := b.getMaterial,
    PrimitiveType := b.PrimitiveType, MappingHint_Vertex := b.MappingHint_Vertex,
    MappingHint_Index := b.MappingHint_Index }

end SSkinMeshBuffer

/-- Modelled from the spec: the smallest box holding `b` and the box `other`, by adding the
two extreme corners of `other` (aabbox3d.h is not among the sources). -/
def aabbox3df.addInternalBox (b other : aabbox3df) : aabbox3df :=
  (b.addInternalPoint other.MaxEdge).addInternalPoint other.MinEdge

/-- The members of struct SMesh.  A pointer to a mesh buffer is the buffer it points to, and
SSkinMeshBuffer stands for the implementations of IMeshBuffer. -/
structure SMesh where
  MeshBuffers : List SSkinMeshBuffer
  BoundingBox : aabbox3df

namespace SMesh

/-- The constructor SMesh(): no buffers, BoundingBox(1,-1). -/
def construct : SMesh := ⟨[], aabbox3df.sentinel⟩

/-- The method getMeshBufferCount(). -/
def getMeshBufferCount (m : SMesh) : Nat := m.MeshBuffers.length

/-- The method setBoundingBox(box). -/
def setBoundingBox (m : SMesh) (box : aabbox3df) : SMesh := { m with BoundingBox := box }

/-- The loop of recalculateBoundingBox() over the buffers still to visit; the state is the
pair (hasMeshBufferBBox, BoundingBox). -/
def recalculateLoop : List SSkinMeshBuffer → Bool × aabbox3df → Bool × aabbox3df
  | [], st => st
  | mb :: rest, (hasMeshBufferBBox, box) =>
    let bb := mb.getBoundingBox
    if bb.isValid then
      if !hasMeshBufferBBox then recalculateLoop rest (true, bb)
      else recalculateLoop rest (hasMeshBufferBBox, box.addInternalBox bb)
    else recalculateLoop rest (hasMeshBufferBBox, box)

/-- The method recalculateBoundingBox(). -/
def recalculateBoundingBox (m : SMesh) : SMesh :=
  let st := recalculateLoop m.MeshBuffers (false, m.BoundingBox)
  if !st.1 then { m with BoundingBox := aabbox3df.sentinel } else { m with BoundingBox := st.2 }

end SMesh

/-- The conversion `(s32)` of a u32 value: values from 2^31 on come out negative. -/
def toS32 (n : Nat) : Int :=
  if n % 2 ^ 32 < 2 ^ 31 then ((n % 2 ^ 32 : Nat) : Int) else ((n % 2 ^ 32 : Nat) : Int) - 2 ^ 32

namespace SMesh

/-- The loop of getMeshBuffer(material) with `k` iterations to go: the index visited next is
`k - 1`, and the loop ends below index 0. -/
def getMeshBufferLoop (m : SMesh) (material : SMaterial) : Nat → Option SSkinMeshBuffer
  | 0 => none
  | k + 1 =>
    match m.MeshBuffers[k]? with
    | some mb => if material = mb.getMaterial then some mb else getMeshBufferLoop m material k
    | none => getMeshBufferLoop m material k

/-- The method getMeshBuffer(material), "reverse search": the index starts at
`(s32)MeshBuffers.size()-1` and runs down while it is `>= 0`; `none` is the null pointer. -/
def getMeshBuffer (m : SMesh) (material : SMaterial) : Option SSkinMeshBuffer :=
  getMeshBufferLoop m material (toS32 m.MeshBuffers.length - 1 + 1).toNat

end SMesh

end irr

/-! ## Mesh manipulator (IMeshManipulator.h) -/

namespace irr

/-- A functor passed to IMeshManipulator::apply: what its call operator does to a vertex of
each of the three vertex types (it receives the vertex by reference). -/
structure VertexFunctor where
  onStandard : S3DVertex → S3DVertex
  on2TCoords : S3DVertex2TCoords → S3DVertex2TCoords
  onTangents : S3DVertexTangents → S3DVertexTangents

/-- The element at position `i` of a list replaced by its image under `f`; a position outside
the list changes nothing. -/
def modifyAt {α : Type} (f : α → α) : Nat → List α → List α
  | _, [] => []
  | 0, a :: as => f a :: as
  | i + 1, a :: as => a :: modifyAt f i as

namespace IMeshManipulator

/-- The state of the loop of apply_: the buffer behind the pointer, the local `bufferbox`,
and the record of the vertex indices the functor has been called on, in call order (the
record is not in the code; it makes the calls observable). -/
structure ApplyState where
  buffer : SSkinMeshBuffer
  bufferbox : aabbox3df
  calls : List Nat

/-- The switch in the loop of apply_: `func(verts[i])` on the array of the buffer's vertex
type. -/
def callFunctor (func : VertexFunctor) (b : SSkinMeshBuffer) (i : Nat) : SSkinMeshBuffer :=
  match b.getVertexType with
  | E_VERTEX_TYPE.EVT_STANDARD =>
      { b with Vertices_Standard := modifyAt func.onStandard i b.Vertices_Standard }
  | E_VERTEX_TYPE.EVT_2TCOORDS =>
      { b with Vertices_2TCoords := modifyAt func.on2TCoords i b.Vertices_2TCoords }
  | E_VERTEX_TYPE.EVT_TANGENTS =>
      { b with Vertices_Tangents := modifyAt func.onTangents i b.Vertices_Tangents }

/-- One pass through the body of the loop of apply_, for index `i`. -/
def applyStep (func : VertexFunctor) (boundingBoxUpdate : Bool) (st : ApplyState) (i : Nat) :
    ApplyState :=
  let b := callFunctor func st.buffer i
  let box :=
    if boundingBoxUpdate then
      (if i = 0 then aabbox3df.reset (b.getPosition 0)
       else st.bufferbox.addInternalPoint (b.getPosition i))
    else st.bufferbox
  { buffer := b, bufferbox := box, calls := st.calls ++ [i] }

/-- What apply leaves behind for a buffer: the return value, the buffer behind the pointer
(`none` for the null pointer) and the record of calls of the functor. -/
structure ApplyResult where
  result : Bool
  buffer : Option SSkinMeshBuffer
  calls : List Nat

/-- The method apply_(func, buffer, boundingBoxUpdate, typeTest).  The loop runs over
`i = 0 .. getVertexCount()-1`; the functor gets one vertex by reference and cannot change the
number of vertices, so the bound is that of the buffer passed in. -/
def apply_ (func : VertexFunctor) (buffer : Option SSkinMeshBuffer) (boundingBoxUpdate : Bool) :
    ApplyResult :=
  match buffer with
  | none => { result := true, buffer := none, calls := [] }
  | some b =>
    let st := (List.range b.getVertexCount).foldl (applyStep func boundingBoxUpdate)
      { buffer := b, bufferbox := aabbox3df.sentinel, calls := [] }
    let b2 := if boundingBoxUpdate then st.buffer.setBoundingBox st.bufferbox else st.buffer
    { result := true, buffer := some b2, calls := st.calls }

/-- The method apply(func, buffer, boundingBoxUpdate): `return apply_(func, buffer,
boundingBoxUpdate, func)`. -/
def apply (func : VertexFunctor) (buffer : Option SSkinMeshBuffer) (boundingBoxUpdate : Bool) :
    ApplyResult :=
  apply_ func buffer boundingBoxUpdate

/-- The state of the loop of apply on a mesh: the buffers already visited (as apply left
them), the locals `result`, `hasBoundingBox` and `bufferbox`, and the record of calls as
pairs (buffer index, vertex index). -/
structure MeshApplyState where
  visited : List SSkinMeshBuffer
  result : Bool
  hasBoundingBox : Bool
  bufferbox : aabbox3df
  calls : List (Nat × Nat)

/-- The loop of apply on a mesh, from buffer index `i` on, over the buffers still to
visit. -/
def applyMeshLoop (func : VertexFunctor) (boundingBoxUpdate : Bool) :
    Nat → List SSkinMeshBuffer → MeshApplyState → MeshApplyState
  | _, [], st => st
  | i, mb :: rest, st =>
    let r := apply func (some mb) boundingBoxUpdate
    let mb2 := r.buffer.getD mb
    let result := st.result && r.result
    let st2 : MeshApplyState :=
      if boundingBoxUpdate && mb2.getBoundingBox.isValid then
        (if st.hasBoundingBox then
          { visited := st.visited ++ [mb2], result := result, hasBoundingBox := true,
            bufferbox := st.bufferbox.addInternalBox mb2.getBoundingBox,
            calls := st.calls ++ r.calls.map fun j => (i, j) }
         else
          { visited := st.visited ++ [mb2], result := result, hasBoundingBox := true,
            bufferbox := mb2.getBoundingBox,
            calls := st.calls ++ r.calls.map fun j => (i, j) })
      else
        { visited := st.visited ++ [mb2], result := result,
          hasBoundingBox := st.hasBoundingBox, bufferbox := st.bufferbox,
          calls := st.calls ++ r.calls.map fun j => (i, j) }
    applyMeshLoop func boundingBoxUpdate (i + 1) rest st2

/-- What apply leaves behind for a mesh: the return value, the mesh behind the pointer and
the record of calls of the functor. -/
structure MeshApplyResult where
  result : Bool
  mesh : Option SMesh
  calls : List (Nat × Nat)

/-- The method apply(func, mesh, boundingBoxUpdate). -/
def applyMesh (func : VertexFunctor) (mesh : Option SMesh) (boundingBoxUpdate : Bool) :
    MeshApplyResult :=
  match mesh with
  | none => { result := true, mesh := none, calls := [] }
  | some m =>
    let st := applyMeshLoop func boundingBoxUpdate 0 m.MeshBuffers
      { visited := [], result := true, hasBoundingBox := false,
        bufferbox := aabbox3df.sentinel, calls := [] }
    let m2 : SMesh := { m with MeshBuffers := st.visited }
    let m3 := if boundingBoxUpdate then m2.setBoundingBox st.bufferbox else m2
    { result := st.result, mesh := some m3, calls := st.calls }

end IMeshManipulator

/-! ## Shader material renderer (COpenGLShaderMaterialRenderer.cpp) -/

/-- The members of class COpenGLShaderMaterialRenderer that the constructors initialise.
Driver and CallBack are handles; shader programs are their OpenGL names. -/
structure COpenGLShaderMaterialRenderer where
  Driver : Option Nat
  CallBack : Option Nat
  Alpha : Bool
  Blending : Bool
  FixedBlending : Bool
  AlphaTest : Bool
  VertexShader : Nat
  PixelShader : List Nat
  UserData : Int
  deriving DecidableEq, Repr

/-- What init() obtains from the OpenGL driver: the program names it leaves in VertexShader
and PixelShader, and the number written to outMaterialTypeNr. -/
structure ShaderSetup where
  VertexShader : Nat
  PixelShader : List Nat
  outMaterialTypeNr : Int
  deriving DecidableEq, Repr

namespace COpenGLShaderMaterialRenderer

/-- The four flags after the switch on baseMaterial, starting from the member initialisers
Alpha(false), Blending(false), FixedBlending(false), AlphaTest(false); the result lists
(Alpha, Blending, FixedBlending, AlphaTest). -/
def switchBaseMaterial (baseMaterial : E_MATERIAL_TYPE) : Bool × Bool × Bool × Bool :=
  match baseMaterial with
  | E_MATERIAL_TYPE.EMT_TRANSPARENT_VERTEX_ALPHA => (true, false, false, false)
  | E_MATERIAL_TYPE.EMT_TRANSPARENT_ALPHA_CHANNEL => (true, false, false, false)
  | E_MATERIAL_TYPE.EMT_NORMAL_MAP_TRANSPARENT_VERTEX_ALPHA => (true, false, false, false)
  | E_MATERIAL_TYPE.EMT_PARALLAX_MAP_TRANSPARENT_VERTEX_ALPHA => (true, false, false, false)
  | E_MATERIAL_TYPE.EMT_TRANSPARENT_ADD_COLOR => (false, false, true, false)
  | E_MATERIAL_TYPE.EMT_NORMAL_MAP_TRANSPARENT_ADD_COLOR => (false, false, true, false)
  | E_MATERIAL_TYPE.EMT_PARALLAX_MAP_TRANSPARENT_ADD_COLOR => (false, false, true, false)
  | E_MATERIAL_TYPE.EMT_ONETEXTURE_BLEND => (false, true, false, false)
  | E_MATERIAL_TYPE.EMT_TRANSPARENT_ALPHA_CHANNEL_REF => (false, false, false, true)
  | E_MATERIAL_TYPE.other _ => (false, false, false, false)

/-- The constructor "only for use by derived classes":
COpenGLShaderMaterialRenderer(driver, callback, baseMaterial, userData). -/
def constructDerived (driver : Option Nat) (callback : Option Nat)
    (baseMaterial : E_MATERIAL_TYPE) (userData : Int) : COpenGLShaderMaterialRenderer :=
  let flags := switchBaseMaterial baseMaterial
  { Driver := driver, CallBack := callback, Alpha := flags.1, Blending := flags.2.1,
    FixedBlending := flags.2.2.1, AlphaTest := flags.2.2.2, VertexShader := 0,
    PixelShader := [0, 0, 0, 0], UserData := userData }

/-- The method init(): it writes VertexShader, PixelShader and outMaterialTypeNr with what
the driver gives, and no other member. -/
def init (r : COpenGLShaderMaterialRenderer) (gl : ShaderSetup) :
    COpenGLShaderMaterialRenderer × Int :=
  ({ r with VertexShader := gl.VertexShader, PixelShader := gl.PixelShader },
    gl.outMaterialTypeNr)

/-- The public constructor COpenGLShaderMaterialRenderer(driver, outMaterialTypeNr,
vertexShaderProgram, pixelShaderProgram, callback, baseMaterial, userData): the same member
initialisers and switch, then init(). -/
def construct (driver : Option Nat) (gl : ShaderSetup) (callback : Option Nat)
    (baseMaterial : E_MATERIAL_TYPE) (userData : Int) : COpenGLShaderMaterialRenderer × Int :=
  let flags := switchBaseMaterial baseMaterial
  init
    { Driver := driver, CallBack := callback, Alpha := flags.1, Blending := flags.2.1,
      FixedBlending := flags.2.2.1, AlphaTest := flags.2.2.2, VertexShader := 0,
      PixelShader := [0, 0, 0, 0], UserData := userData }
    gl

/-- The method isTransparent(): `return (Alpha || Blending || FixedBlending)`. -/
def isTransparent (r : COpenGLShaderMaterialRenderer) : Bool :=
  r.Alpha || r.Blending || r.FixedBlending

end COpenGLShaderMaterialRenderer

end irr

/-! ## Tree view nodes (CGUITreeView.cpp) -/

namespace irr

/-- A tree view node, class CGUITreeViewNode.  `Address` is the address of the node object,
by which pointers to it are compared; `Owner` and `Parent` are pointers (addresses, `none`
for null); `Children` is the core::list of child pointers, each child given as the node
object it points to; `ReferenceCounter` is the counter of IReferenceCounted.  The other
members are those the constructor and the add/insert methods set. -/
inductive CGUITreeViewNode where
  | mk (Address : Nat) (Owner : Option Nat) (Parent : Option Nat) (Text : String)
      (Icon : String) (ImageIndex : Int) (SelectedImageIndex : Int) (Data : Option Nat)
      (Data2 : Option Nat) (Expanded : Bool) (Children : List CGUITreeViewNode)
      (ReferenceCounter : Nat)

namespace CGUITreeViewNode

/-- The address of the node object. -/
def Address : CGUITreeViewNode → Nat
  | mk a _ _ _ _ _ _ _ _ _ _ _ => a

/-- The member Owner. -/
def Owner : CGUITreeViewNode → Option Nat
  | mk _ o _ _ _ _ _ _ _ _ _ _ => o

/-- The member Parent. -/
def Parent : CGUITreeViewNode → Option Nat
  | mk _ _ p _ _ _ _ _ _ _ _ _ => p

/-- The member Children. -/
def Children : CGUITreeViewNode → List CGUITreeViewNode
  | mk _ _ _ _ _ _ _ _ _ _ c _ => c

/-- The reference counter of the node object. -/
def ReferenceCounter : CGUITreeViewNode → Nat
  | mk _ _ _ _ _ _ _ _ _ _ _ r => r

/-- The node with its member Children replaced. -/
def setChildren : CGUITreeViewNode → List CGUITreeViewNode → CGUITreeViewNode
  | mk a o p t ic ii si d d2 e _ r, cs => mk a o p t ic ii si d d2 e cs r

/-- The addresses of the children, in list order: the core::list of pointers itself. -/
def childPointers (n : CGUITreeViewNode) : List Nat := n.Children.map Address

/-- The node made by `new CGUITreeViewNode(owner, parent)` at `address`, with the members
the add/insert methods assign afterwards (Text, Icon, ImageIndex, SelectedImageIndex, Data,
Data2) already in place.  A new object has reference counter 1, is not expanded and has no
children. -/
def construct (address : Nat) (owner parent : Option Nat) (text icon : String)
    (imageIndex selectedImageIndex : Int) (data data2 : Option Nat) : CGUITreeViewNode :=
  mk address owner parent text icon imageIndex selectedImageIndex data data2 false [] 1

end CGUITreeViewNode

/-- The members of class CGUITreeView that the node methods read or write: pointers to the
root node, the selected node and the hover-selected node. -/
structure CGUITreeView where
  Root : Option Nat
  Selected : Option Nat
  HoverSelected : Option Nat
  deriving DecidableEq, Repr

/-- The tree views in memory, by address. -/
abbrev TreeViews := Nat → CGUITreeView

namespace CGUITreeViewNode

/-- The method setSelected(selected), acting on the tree view the node's Owner points to. -/
def setSelected (views : TreeViews) (n : CGUITreeViewNode) (selected : Bool) : TreeViews :=
  match n.Owner with
  | none => views
  | some o =>
    let v := views o
    let v1 : CGUITreeView :=
      if selected then { v with Selected := some n.Address }
      else if v.Selected = some n.Address then { v with Selected := none }
      else v
    let v2 : CGUITreeView :=
      if v1.HoverSelected = some n.Address then { v1 with HoverSelected := none } else v1
    Function.update views o v2

mutual
/-- The method drop() of IReferenceCounted on a node: the counter goes down by one, and at
zero the object is deleted, which runs the destructor: setSelected(false), clearChildren().
What remains of it is its effect on the tree views.  (The destructor also drops Data2, an
object outside this embedding.) -/
def drop (views : TreeViews) : CGUITreeViewNode → TreeViews
  | mk a o p t ic ii si d d2 e cs r =>
    if r = 1 then clearChildrenLoop (setSelected views (mk a o p t ic ii si d d2 e cs r) false) cs
    else views
/-- The loop of clearChildren(): each child gets setSelected(false) and drop(). -/
def clearChildrenLoop (views : TreeViews) : List CGUITreeViewNode → TreeViews
  | [] => views
  | c :: rest => clearChildrenLoop (drop (setSelected views c false) c) rest
end

/-- The loop of insertChildAfter over the children: at the first child whose address is
`other` the new node is linked in behind it (insert_after) and the loop ends; `none` when no
child has that address. -/
def insertChildAfterLoop (other : Option Nat) (newChild : CGUITreeViewNode) :
    List CGUITreeViewNode → Option (List CGUITreeViewNode)
  | [] => none
  | c :: rest =>
    if other = some c.Address then some (c :: newChild :: rest)
    else (insertChildAfterLoop other newChild rest).map fun l => c :: l

/-- The method insertChildAfter(other, text, icon, imageIndex, selectedImageIndex, data,
data2).  `address` is where `new` puts the node if one is made.  The result is the node
afterwards and the returned pointer.  (`data2->grab()` acts on the user's object, which is
outside this embedding.) -/
def insertChildAfter (this : CGUITreeViewNode) (address : Nat) (other : Option Nat)
    (text icon : String) (imageIndex selectedImageIndex : Int) (data data2 : Option Nat) :
    CGUITreeViewNode × Option Nat :=
  match insertChildAfterLoop other
      (construct address this.Owner (some this.Address) text icon imageIndex
        selectedImageIndex data data2) this.Children with
  | some l => (this.setChildren l, some address)
  | none => (this, none)

/-- The loop of deleteChild over the children: at the first child whose address is `child`,
setSelected(false) and drop() on it, and it is erased from the list; `none` when no child has
that address. -/
def deleteChildLoop (views : TreeViews) (child : Option Nat) :
    List CGUITreeViewNode → Option (TreeViews × List CGUITreeViewNode)
  | [] => none
  | c :: rest =>
    if child = some c.Address then some (drop (setSelected views c false) c, rest)
    else (deleteChildLoop views child rest).map fun p => (p.1, c :: p.2)

/-- The method deleteChild(child): the tree views and the node afterwards, and the return
value. -/
def deleteChild (views : TreeViews) (this : CGUITreeViewNode) (child : Option Nat) :
    TreeViews × CGUITreeViewNode × Bool :=
  match deleteChildLoop views child this.Children with
  | some p => (p.1, this.setChildren p.2, true)
  | none => (views, this, false)

/-- The loop of moveChildUp past the first child: `prev` is the child the iterator itOther
points to, the list holds the children from itChild on. -/
def moveChildUpLoop (child : Option Nat) :
    CGUITreeViewNode → List CGUITreeViewNode → List CGUITreeViewNode × Bool
  | prev, [] => ([prev], false)
  | prev, c :: rest =>
    if child = some c.Address then (c :: prev :: rest, true)
    else
      let r := moveChildUpLoop child c rest
      (prev :: r.1, r.2)

/-- The method moveChildUp(child): the node afterwards and the return value `moved`. -/
def moveChildUp (this : CGUITreeViewNode) (child : Option Nat) : CGUITreeViewNode × Bool :=
  match this.Children with
  | [] => (this, false)
  | c :: rest =>
    if child = some c.Address then (this, false)
    else
      let r := moveChildUpLoop child c rest
      (this.setChildren r.1, r.2)

/-- The loop of moveChildDown over the children from itChild on. -/
def moveChildDownLoop (child : Option Nat) :
    List CGUITreeViewNode → List CGUITreeViewNode × Bool
  | [] => ([], false)
  | c :: rest =>
    if child = some c.Address then
      (match rest with
       | [] => ([c], false)
       | d :: rest2 => (d :: c :: rest2, true))
    else
      let r := moveChildDownLoop child rest
      (c :: r.1, r.2)

/-- The method moveChildDown(child): the node afterwards and the return value `moved`. -/
def moveChildDown (this : CGUITreeViewNode) (child : Option Nat) : CGUITreeViewNode × Bool :=
  let r := moveChildDownLoop child this.Children
  (this.setChildren r.1, r.2)

end CGUITreeViewNode

/-! ## Sample data for meshes and tree views -/

/-- The flag values used in the examples. -/
def sampleCloneFlags : ECloneFlags := ⟨1, 2⟩

/-- A standard vertex at a position, with everything else zero. -/
def sampleVertex (x y z : Int) : S3DVertex := ⟨⟨x, y, z⟩, ⟨0, 0, 0⟩, 0, ⟨0, 0⟩⟩

/-- A skin mesh buffer with three standard vertices, three indices, a given material and
bounding box. -/
def sampleSkinBuffer (material : SMaterial) (box : aabbox3df) : SSkinMeshBuffer :=
  { SSkinMeshBuffer.construct E_VERTEX_TYPE.EVT_STANDARD with
    Vertices_Standard := [sampleVertex 0 0 0, sampleVertex 1 0 0, sampleVertex 0 2 0],
    Indices := [0, 1, 2], Material := material, BoundingBox := box }

/-- A mesh of three buffers: boxes [(0,0,0),(1,2,1)], the sentinel (not valid) and
[(-1,0,0),(3,1,1)]; the materials are told apart by MaterialTypeParam 7, 8, 7. -/
def sampleSMesh : SMesh :=
  ⟨[sampleSkinBuffer ⟨E_MATERIAL_TYPE.other 0, 7, false⟩ ⟨⟨0, 0, 0⟩, ⟨1, 2, 1⟩⟩,
    sampleSkinBuffer ⟨E_MATERIAL_TYPE.other 0, 8, false⟩ aabbox3df.sentinel,
    sampleSkinBuffer ⟨E_MATERIAL_TYPE.other 0, 7, false⟩ ⟨⟨-1, 0, 0⟩, ⟨3, 1, 1⟩⟩],
   ⟨⟨5, 5, 5⟩, ⟨6, 6, 6⟩⟩⟩

/-- A functor that moves every vertex one unit along X. -/
def sampleFunctor : VertexFunctor :=
  { onStandard := fun v => { v with Pos := ⟨v.Pos.X + 1, v.Pos.Y, v.Pos.Z⟩ },
    on2TCoords := fun v => { v with Pos := ⟨v.Pos.X + 1, v.Pos.Y, v.Pos.Z⟩ },
    onTangents := fun v => { v with Pos := ⟨v.Pos.X + 1, v.Pos.Y, v.Pos.Z⟩ } }

/-- A childless node at `address`, owned by the tree view at address 100, child of the node
at address 1. -/
def sampleLeaf (address : Nat) : CGUITreeViewNode :=
  CGUITreeViewNode.construct address (some 100) (some 1) "" "" (-1) (-1) none none

/-- The node at address 1 with the children at addresses 2, 3 and 4, in this order. -/
def sampleParent : CGUITreeViewNode :=
  CGUITreeViewNode.mk 1 (some 100) none "" "" (-1) (-1) none none true
    [sampleLeaf 2, sampleLeaf 3, sampleLeaf 4] 1

/-- Tree views: the one at address 100 has node 3 selected and node 3 hover-selected. -/
def sampleViews : TreeViews := fun _ => ⟨some 1, some 3, some 3⟩

end irr

/-! ## Predicates of the mesh and tree view properties -/

namespace irr

/-- The box `outer` holds the box `inner`: on every axis its minimum is not above and its
maximum not below that of `inner`. -/
def aabbox3df.encloses (outer inner : aabbox3df) : Bool :=
  decide (outer.MinEdge.X ≤ inner.MinEdge.X) && decide (outer.MinEdge.Y ≤ inner.MinEdge.Y) &&
  decide (outer.MinEdge.Z ≤ inner.MinEdge.Z) && decide (inner.MaxEdge.X ≤ outer.MaxEdge.X) &&
  decide (inner.MaxEdge.Y ≤ outer.MaxEdge.Y) && decide (inner.MaxEdge.Z ≤ outer.MaxEdge.Z)

/-- The bounding boxes of those buffers of a mesh whose box is valid, in buffer order. -/
def SMesh.validBoxes (m : SMesh) : List aabbox3df :=
  (m.MeshBuffers.map SSkinMeshBuffer.getBoundingBox).filter aabbox3df.isValid

/-- The union of a list of boxes as the claim words it: on every axis the least minimum and
the greatest maximum of the boxes, and the sentinel box for no boxes. -/
def unionOfBoxes : List aabbox3df → aabbox3df
  | [] => aabbox3df.sentinel
  | b :: bs =>
    bs.foldl (fun acc bb =>
      ⟨⟨min acc.MinEdge.X bb.MinEdge.X, min acc.MinEdge.Y bb.MinEdge.Y,
        min acc.MinEdge.Z bb.MinEdge.Z⟩,
       ⟨max acc.MaxEdge.X bb.MaxEdge.X, max acc.MaxEdge.Y bb.MaxEdge.Y,
        max acc.MaxEdge.Z bb.MaxEdge.Z⟩⟩) b

/-- Every Selected and HoverSelected pointer of the tree views `v2` is the one of `v1` or
null. -/
def CGUITreeViewNode.OnlyCleared (v1 v2 : TreeViews) : Prop :=
  ∀ o, ((v2 o).Selected = (v1 o).Selected ∨ (v2 o).Selected = none) ∧
    ((v2 o).HoverSelected = (v1 o).HoverSelected ∨ (v2 o).HoverSelected = none)

end irr

/-! # Properties

All definitions are above this line; what follows are lemmas and theorems only. -/

namespace irr

open CTriangleSelector

/-! ## Auxiliary facts -/

theorem indexFrom_map_snd {α : Type} (l : List α) (n : Nat) :
    (indexFrom n l).map Prod.snd = l := by
  induction l generalizing n with
  | nil => rfl
  | cons a as ih => simp [indexFrom, ih]

theorem indexFrom_length {α : Type} (l : List α) (n : Nat) :
    (indexFrom n l).length = l.length := by
  induction l generalizing n with
  | nil => rfl
  | cons a as ih => simp [indexFrom, ih]

theorem writeTriangles_of_lt (buf : TriangleBuffer) (ts : List triangle3df) (i : Nat)
    (h : i < ts.length) : ts[i]? = some (writeTriangles buf ts i) := by
  simp [writeTriangles, h]

theorem writeTriangles_of_ge (buf : TriangleBuffer) (ts : List triangle3df) (i : Nat)
    (h : ts.length ≤ i) : writeTriangles buf ts i = buf i := by
  simp [writeTriangles, Nat.not_lt.mpr h]

theorem emit_triangles (s : CTriangleSelector) (found : List (Nat × triangle3df))
    (buf : TriangleBuffer) (arraySize : Int) (info : Option (List SCollisionTriangleRange)) :
    (emit s found buf arraySize info).triangles =
      writeTriangles buf ((found.map Prod.snd).take arraySize.toNat) := by
  simp [emit, List.map_take]

theorem emit_count (s : CTriangleSelector) (found : List (Nat × triangle3df))
    (buf : TriangleBuffer) (arraySize : Int) (info : Option (List SCollisionTriangleRange)) :
    (emit s found buf arraySize info).outTriangleCount =
      ((min arraySize.toNat found.length : Nat) : Int) := by
  simp [emit, List.length_take]

theorem getTriangles_fst (scene : Scene) (s : CTriangleSelector) (buf : TriangleBuffer)
    (arraySize : Int) (transform : Option matrix4) (useNodeTransform : Bool)
    (info : Option (List SCollisionTriangleRange)) :
    (s.getTriangles scene buf arraySize transform useNodeTransform info).1 = s.update scene :=
  rfl

theorem getTriangles_count (scene : Scene) (s : CTriangleSelector) (buf : TriangleBuffer)
    (arraySize : Int) (transform : Option matrix4) (useNodeTransform : Bool)
    (info : Option (List SCollisionTriangleRange)) :
    (s.getTriangles scene buf arraySize transform useNodeTransform info).2.outTriangleCount =
      ((min arraySize.toNat (s.update scene).Triangles.length : Nat) : Int) := by
  simp [getTriangles, emit_count, indexFrom_length]

theorem getTriangles_triangles (scene : Scene) (s : CTriangleSelector) (buf : TriangleBuffer)
    (arraySize : Int) (transform : Option matrix4) (useNodeTransform : Bool)
    (info : Option (List SCollisionTriangleRange)) :
    (s.getTriangles scene buf arraySize transform useNodeTransform info).2.triangles =
      writeTriangles buf
        (((s.update scene).Triangles.map
          (queryTransform scene (s.update scene) transform useNodeTransform).transformTriangle).take
            arraySize.toNat) := by
  simp [getTriangles, emit_triangles, indexFrom_map_snd]

/-! ## C1: truncation of the unrestricted query -/

/-- C1. For every selector and every arraySize ≥ 0 the unrestricted query writes exactly
min(arraySize, getTriangleCount()) triangles, namely the first triangles of the sequence
(transformed), at indices 0, 1, ... of the output, sets outTriangleCount to that number and
leaves every other index of the caller's memory as it was; when arraySize is smaller than
getTriangleCount() the count is arraySize and nothing at or beyond index arraySize is
written.  getTriangleCount() is that of the selector as the query leaves it, that is, after
its freshness check. -/
theorem getTriangles_writes_min (scene : Scene) (s : CTriangleSelector) (buf : TriangleBuffer)
    (arraySize : Int) (transform : Option matrix4) (useNodeTransform : Bool)
    (info : Option (List SCollisionTriangleRange)) (h : 0 ≤ arraySize) :
    let r := s.getTriangles scene buf arraySize transform useNodeTransform info
    let mat := queryTransform scene r.1 transform useNodeTransform
    r.1 = s.update scene ∧
    r.2.outTriangleCount = min arraySize r.1.getTriangleCount ∧
    (∀ i : Nat, (i : Int) < r.2.outTriangleCount →
      (r.1.Triangles.map mat.transformTriangle)[i]? = some (r.2.triangles i)) ∧
    (∀ i : Nat, r.2.outTriangleCount ≤ (i : Int) → r.2.triangles i = buf i) ∧
    (arraySize < r.1.getTriangleCount →
      r.2.outTriangleCount = arraySize ∧
        ∀ i : Nat, arraySize ≤ (i : Int) → r.2.triangles i = buf i) := by
  intro r mat
  have hcnt : r.2.outTriangleCount =
      ((min arraySize.toNat (s.update scene).Triangles.length : Nat) : Int) :=
    getTriangles_count scene s buf arraySize transform useNodeTransform info
  have htri : r.2.triangles = writeTriangles buf
      (((s.update scene).Triangles.map mat.transformTriangle).take arraySize.toNat) :=
    getTriangles_triangles scene s buf arraySize transform useNodeTransform info
  have hr1 : r.1 = s.update scene := rfl
  have hmin : r.2.outTriangleCount = min arraySize r.1.getTriangleCount := by
    rw [hcnt, hr1]
    simp only [getTriangleCount]
    omega
  have hlen : (((s.update scene).Triangles.map mat.transformTriangle).take
      arraySize.toNat).length = min arraySize.toNat (s.update scene).Triangles.length := by
    simp [List.length_take]
  have hkeep : ∀ i : Nat, r.2.outTriangleCount ≤ (i : Int) → r.2.triangles i = buf i := by
    intro i hi
    rw [htri]
    apply writeTriangles_of_ge
    rw [hlen]
    rw [hcnt] at hi
    exact_mod_cast hi
  refine ⟨hr1, hmin, ?_, hkeep, ?_⟩
  · intro i hi
    rw [htri, hr1]
    rw [hcnt] at hi
    have hi2 : i < min arraySize.toNat (s.update scene).Triangles.length := by exact_mod_cast hi
    rw [← writeTriangles_of_lt buf _ i (by rw [hlen]; exact hi2)]
    rw [List.getElem?_take]
    simp [(lt_min_iff.mp hi2).1]
  · intro hlt
    have hc : r.2.outTriangleCount = arraySize := by
      rw [hmin]; exact min_eq_left (le_of_lt hlt)
    exact ⟨hc, fun i hi => hkeep i (by rw [hc]; exact hi)⟩

end irr

namespace irr
open CTriangleSelector

/-- Witness for C1: the box selector holds 12 triangles; with room for 5 the query reports 5
and leaves the caller's memory from index 5 on untouched. -/
theorem getTriangles_writes_min_witness :
    (0 : Int) ≤ 5 ∧
    ((mkBox unitBox none).getTriangles (sampleScene 0) blankBuffer 5 none false
        none).2.outTriangleCount = 5 ∧
    ∀ i : Nat, (5 : Int) ≤ (i : Int) →
      ((mkBox unitBox none).getTriangles (sampleScene 0) blankBuffer 5 none false
        none).2.triangles i = blankBuffer i :=
  ⟨by decide,
   (getTriangles_writes_min (sampleScene 0) (mkBox unitBox none) blankBuffer 5 none false none
      (by decide)).2.2.2.2 (by decide)⟩

end irr

namespace irr
open CTriangleSelector

/-! ## C2: the range table partitions the triangle sequence -/

theorem extractMesh_triangles (mesh : Option IMesh) (separateMeshbuffers : Bool) :
    (extractMesh mesh separateMeshbuffers).Triangles = extractTriangles mesh := by
  cases mesh with
  | none => rfl
  | some m => cases separateMeshbuffers <;> rfl

/-- What update does: nothing, or (for an animated selector that finds another frame number)
a rebuild of the triangles and the box with the new frame number recorded. -/
theorem update_cases (scene : Scene) (s : CTriangleSelector) :
    s.update scene = s ∨
    ∃ n, s.AnimatedNode = some n ∧ (scene n).currentFrameNumber ≠ s.LastMeshFrame ∧
      s.update scene =
        { updateFromMesh (scene n).currentFrameMesh s with
          LastMeshFrame := (scene n).currentFrameNumber } := by
  unfold update
  cases hn : s.AnimatedNode with
  | none => exact Or.inl rfl
  | some n =>
    by_cases hf : (scene n).currentFrameNumber = s.LastMeshFrame
    · simp [hf]
    · right
      exact ⟨n, rfl, hf, by simp [hf]⟩

theorem update_animatedNode (scene : Scene) (s : CTriangleSelector) :
    (s.update scene).AnimatedNode = s.AnimatedNode := by
  rcases update_cases scene s with h0 | ⟨n, _, _, h1⟩
  · rw [h0]
  · rw [h1]; rfl

theorem update_sceneNode (scene : Scene) (s : CTriangleSelector) :
    (s.update scene).SceneNode = s.SceneNode := by
  rcases update_cases scene s with h0 | ⟨n, _, _, h1⟩
  · rw [h0]
  · rw [h1]; rfl

theorem Query.run_fst (tests : SegmentTests) (scene : Scene) (s : CTriangleSelector)
    (q : Query) : (q.run tests scene s).1 = s.update scene := by
  cases q with
  | all => rfl
  | box triangles arraySize queryBox transform useNodeTransform info =>
    simp only [Query.run, getTrianglesBox]
    split <;> rfl
  | line triangles arraySize queryLine transform useNodeTransform info =>
    simp only [Query.run, getTrianglesLine]
    split <;> rfl

theorem runQueries_animatedNode (tests : SegmentTests) (qs : List (Scene × Query))
    (s : CTriangleSelector) : (runQueries tests s qs).AnimatedNode = s.AnimatedNode := by
  induction qs generalizing s with
  | nil => rfl
  | cons p rest ih =>
    obtain ⟨scene, q⟩ := p
    simp only [runQueries]
    rw [ih, Query.run_fst, update_animatedNode]

end irr

namespace irr
open CTriangleSelector

/-! ## C3: one range per mesh buffer -/

theorem bufferRangesFrom_length (bs : List IMeshBuffer) (start : Nat) :
    (bufferRangesFrom start bs).length = bs.length := by
  induction bs generalizing start with
  | nil => rfl
  | cons b bs ih => simp [bufferRangesFrom, ih]

theorem bufferRangesFrom_getElem? (bs : List IMeshBuffer) (start : Nat) (i : Fin bs.length) :
    (bufferRangesFrom start bs)[i.val]? =
      some ⟨start + (IMesh.mk bs).triangleCountBefore i.val, (bs.get i).getTriangles.length,
        some (bs.get i), (bs.get i).MaterialIndex⟩ := by
  induction bs generalizing start with
  | nil => exact i.elim0
  | cons b bs ih =>
    obtain ⟨i, hi⟩ := i
    cases i with
    | zero => simp [bufferRangesFrom, IMesh.triangleCountBefore]
    | succ j =>
      have hj : j < bs.length := by simpa using hi
      have h := ih (start + b.getTriangles.length) ⟨j, hj⟩
      simp only [IMesh.triangleCountBefore, bufferRangesFrom, List.getElem?_cons_succ,
        List.take_succ_cons, List.map_cons, List.sum_cons, List.get_eq_getElem,
        List.getElem_cons_succ] at h ⊢
      rw [h, Nat.add_assoc]

theorem mkMesh_separate_rangeTable (mesh : IMesh) (node : Option Nat) :
    (mkMesh (some mesh) node true).rangeTable = bufferRangesFrom 0 mesh.MeshBuffers := by
  unfold rangeTable
  by_cases hb : (mkMesh (some mesh) node true).BufferRanges.isEmpty = true
  · rw [if_pos hb]
    have h2 : (mkMesh (some mesh) node true).BufferRanges = [] := List.isEmpty_iff.mp hb
    have h3 : (mkMesh (some mesh) node true).BufferRanges = bufferRangesFrom 0 mesh.MeshBuffers :=
      rfl
    rw [← h3, h2]
    rfl
  · rw [if_neg hb]
    rfl

/-- C3. For every mesh with n mesh buffers, the selector constructed with
separateMeshbuffers=true has exactly n ranges, in buffer order: range i starts at the total
triangle count of buffers 0..i-1, has the triangle count of buffer i as its size, refers to
buffer i and carries that buffer's material index.  For the 2-buffer mesh of Scenario B (4
triangles with material 2, 3 triangles with material 5) the table is
[{0,4,buf0,2},{4,3,buf1,5}] and getTriangleCount() is 7. -/
theorem mkMesh_separate_ranges :
    (∀ (mesh : IMesh) (node : Option Nat),
      (mkMesh (some mesh) node true).rangeTable.length = mesh.MeshBuffers.length ∧
      ∀ i : Fin mesh.MeshBuffers.length,
        (mkMesh (some mesh) node true).rangeTable[i.val]? =
          some ⟨mesh.triangleCountBefore i.val, (mesh.MeshBuffers.get i).getTriangles.length,
            some (mesh.MeshBuffers.get i), (mesh.MeshBuffers.get i).MaterialIndex⟩) ∧
    (∀ node : Option Nat,
      (mkMesh (some sampleMesh) node true).rangeTable =
        [⟨0, 4, some (sampleBuffer4 2), 2⟩, ⟨4, 3, some (sampleBuffer3 5), 5⟩] ∧
      (mkMesh (some sampleMesh) node true).getTriangleCount = 7) := by
  refine ⟨fun mesh node => ?_, fun node => ?_⟩
  · rw [mkMesh_separate_rangeTable]
    refine ⟨bufferRangesFrom_length _ _, fun i => ?_⟩
    have h := bufferRangesFrom_getElem? mesh.MeshBuffers 0 i
    simpa using h
  · rw [mkMesh_separate_rangeTable]
    exact ⟨rfl, rfl⟩

end irr

namespace irr
open CTriangleSelector

/-! ## C4: frame-driven rebuild -/

theorem update_of_not_animated (scene : Scene) (s : CTriangleSelector)
    (h : s.AnimatedNode = none) : s.update scene = s := by
  simp [update, h]

theorem update_of_frame_eq (scene : Scene) (s : CTriangleSelector) (n : Nat)
    (hn : s.AnimatedNode = some n) (hf : (scene n).currentFrameNumber = s.LastMeshFrame) :
    s.update scene = s := by
  simp [update, hn, hf]

theorem update_lastMeshFrame (scene : Scene) (s : CTriangleSelector) (n : Nat)
    (hn : s.AnimatedNode = some n) :
    (s.update scene).LastMeshFrame = (scene n).currentFrameNumber := by
  by_cases hf : (scene n).currentFrameNumber = s.LastMeshFrame
  · simp [update, hn, hf]
  · simp [update, hn, hf]

theorem update_triangles_of_frame_ne (scene : Scene) (s : CTriangleSelector) (n : Nat)
    (hn : s.AnimatedNode = some n) (hf : (scene n).currentFrameNumber ≠ s.LastMeshFrame) :
    (s.update scene).Triangles = extractTriangles (scene n).currentFrameMesh := by
  simp [update, hn, hf, updateFromMesh]

theorem runQueries_append (tests : SegmentTests) (qs1 qs2 : List (Scene × Query))
    (s : CTriangleSelector) :
    runQueries tests s (qs1 ++ qs2) = runQueries tests (runQueries tests s qs1) qs2 := by
  induction qs1 generalizing s with
  | nil => rfl
  | cons p rest ih =>
    obtain ⟨scene, q⟩ := p
    simp only [List.cons_append, runQueries]
    exact ih _

/-- One more query on a selector built from the animated node `n` and already queried. -/
theorem runQueries_last (tests : SegmentTests) (n : Nat) (sep : Bool) (scene0 : Scene)
    (qs : List (Scene × Query)) (scene : Scene) (q : Query) :
    (runQueries tests (mkAnimated scene0 (some n) sep) (qs ++ [(scene, q)])).LastMeshFrame =
      (scene n).currentFrameNumber ∧
    ((scene n).currentFrameNumber ≠
        (runQueries tests (mkAnimated scene0 (some n) sep) qs).LastMeshFrame →
      (runQueries tests (mkAnimated scene0 (some n) sep) (qs ++ [(scene, q)])).Triangles =
        extractTriangles (scene n).currentFrameMesh) ∧
    ((scene n).currentFrameNumber =
        (runQueries tests (mkAnimated scene0 (some n) sep) qs).LastMeshFrame →
      runQueries tests (mkAnimated scene0 (some n) sep) (qs ++ [(scene, q)]) =
        runQueries tests (mkAnimated scene0 (some n) sep) qs) := by
  have hn : (runQueries tests (mkAnimated scene0 (some n) sep) qs).AnimatedNode = some n := by
    rw [runQueries_animatedNode]; rfl
  rw [runQueries_append]
  simp only [runQueries, Query.run_fst]
  exact ⟨update_lastMeshFrame scene _ n hn,
    fun hf => update_triangles_of_frame_ne scene _ n hn hf,
    fun hf => update_of_frame_eq scene _ n hn hf⟩

/-- C4, as amended.  For a selector built from an animated mesh scene node, holding the
triangles of the mesh and the frame number the node showed at construction: after every
public query (the last of any sequence of queries, made in `scene`) LastMeshFrame is the
node's current frame number; when the query finds a frame number other than LastMeshFrame,
the cached triangles are afterwards those extracted from the node's current-frame mesh; when
it finds the frame number unchanged, the selector with its cached triangles is left as it
was, whatever mesh the node shows.  So a selector built at frame 0, queried at frame 0 and
queried again when the node is at frame 1 holds the triangles of the mesh of frame 1 and
LastMeshFrame = 1.  A selector built by any other constructor, or from a null animated node,
is left as it is by update(). -/
theorem animated_selector_follows_frame (tests : SegmentTests) (n : Nat) (sep : Bool)
    (scene0 : Scene) (qs : List (Scene × Query)) (scene : Scene) (q : Query) :
    ((mkAnimated scene0 (some n) sep).LastMeshFrame = (scene0 n).currentFrameNumber ∧
      (mkAnimated scene0 (some n) sep).Triangles =
        extractTriangles (scene0 n).currentFrameMesh) ∧
    ((runQueries tests (mkAnimated scene0 (some n) sep) (qs ++ [(scene, q)])).LastMeshFrame =
        (scene n).currentFrameNumber ∧
      ((scene n).currentFrameNumber ≠
          (runQueries tests (mkAnimated scene0 (some n) sep) qs).LastMeshFrame →
        (runQueries tests (mkAnimated scene0 (some n) sep) (qs ++ [(scene, q)])).Triangles =
          extractTriangles (scene n).currentFrameMesh) ∧
      ((scene n).currentFrameNumber =
          (runQueries tests (mkAnimated scene0 (some n) sep) qs).LastMeshFrame →
        runQueries tests (mkAnimated scene0 (some n) sep) (qs ++ [(scene, q)]) =
          runQueries tests (mkAnimated scene0 (some n) sep) qs)) ∧
    (∀ (scene1 : Scene) (q1 : Query), (scene0 n).currentFrameNumber = 0 →
      (scene1 n).currentFrameNumber = 0 → (scene n).currentFrameNumber = 1 →
      (runQueries tests (mkAnimated scene0 (some n) sep)
        ([(scene1, q1)] ++ [(scene, q)])).LastMeshFrame = 1 ∧
      (runQueries tests (mkAnimated scene0 (some n) sep)
        ([(scene1, q1)] ++ [(scene, q)])).Triangles =
          extractTriangles (scene n).currentFrameMesh) ∧
    (∀ (sc : Scene) (node : Option Nat), (mkNode node).update sc = mkNode node) ∧
    (∀ (sc : Scene) (mesh : Option IMesh) (node : Option Nat) (b : Bool),
      (mkMesh mesh node b).update sc = mkMesh mesh node b) ∧
    (∀ (sc : Scene) (meshBuffer : Option IMeshBuffer) (materialIndex : Nat)
      (node : Option Nat),
      (mkMeshBuffer meshBuffer materialIndex node).update sc =
        mkMeshBuffer meshBuffer materialIndex node) ∧
    (∀ (sc : Scene) (box : aabbox3df) (node : Option Nat),
      (mkBox box node).update sc = mkBox box node) ∧
    (∀ (sc sc0 : Scene) (b : Bool), (mkAnimated sc0 none b).update sc = mkAnimated sc0 none b) := by
  refine ⟨⟨rfl, extractMesh_triangles _ _⟩, runQueries_last tests n sep scene0 qs scene q, ?_,
    fun sc node => rfl, fun sc mesh node b => rfl, ?_, fun sc box node => rfl,
    fun sc sc0 b => rfl⟩
  · intro scene1 q1 h0 h1 h2
    obtain ⟨a, b, _⟩ := runQueries_last tests n sep scene0 [(scene1, q1)] scene q
    have hfirst : (runQueries tests (mkAnimated scene0 (some n) sep)
        [(scene1, q1)]).LastMeshFrame = 0 := by
      have := (runQueries_last tests n sep scene0 [] scene1 q1).1
      rw [List.nil_append] at this
      rw [this, h1]
    refine ⟨by rw [a, h2], b ?_⟩
    rw [hfirst, h2]
    exact Nat.one_ne_zero
  · intro sc meshBuffer materialIndex node
    cases meshBuffer <;> rfl

/-- Witness for C4 as amended (property P5 of the spec): a selector over the sample
animation, queried at frame 0 and then at frame 1, ends with LastMeshFrame = 1 and the
triangles of frame 1, and the second query returns frame 1's triangle. -/
theorem animated_selector_follows_frame_witness :
    ((runQueries sampleTests (mkAnimated (sampleScene 0) (some 0) false)
        ([(sampleScene 0, Query.all blankBuffer 4 none false none)] ++
          [(sampleScene 1, Query.all blankBuffer 4 none false none)])).LastMeshFrame = 1 ∧
      (runQueries sampleTests (mkAnimated (sampleScene 0) (some 0) false)
        ([(sampleScene 0, Query.all blankBuffer 4 none false none)] ++
          [(sampleScene 1, Query.all blankBuffer 4 none false none)])).Triangles =
        [⟨⟨0, 0, 0⟩, ⟨1, 0, 0⟩, ⟨0, 2, 0⟩⟩]) ∧
    (((mkAnimated (sampleScene 0) (some 0) false).getTriangles (sampleScene 0) blankBuffer 4
        none false none).1.getTriangles (sampleScene 1) blankBuffer 4 none false
          none).2.triangles 0 = ⟨⟨0, 0, 0⟩, ⟨1, 0, 0⟩, ⟨0, 2, 0⟩⟩ :=
  ⟨(animated_selector_follows_frame sampleTests 0 false (sampleScene 0) [] (sampleScene 1)
      (Query.all blankBuffer 4 none false none)).2.2.1 (sampleScene 0)
      (Query.all blankBuffer 4 none false none) rfl rfl rfl,
   by decide⟩

/-- Counterexample to C4 as stated: a selector built from an animated node that shows a
one-triangle mesh at frame 0, queried when the node is still at frame 0 but has lost its
mesh.  The frame number is unchanged, so nothing is rebuilt: the query returns the one
triangle of construction, while nothing can be extracted from the node's current-frame
mesh. -/
theorem animated_selector_keeps_triangles_at_same_frame :
    (runQueries sampleTests
        (mkAnimated (sampleSceneWith 0 (some (sampleFrameMesh 0))) (some 0) false)
        [(sampleSceneWith 0 none, Query.all blankBuffer 4 none false none)]).LastMeshFrame =
      ((sampleSceneWith 0 none) 0).currentFrameNumber ∧
    (runQueries sampleTests
        (mkAnimated (sampleSceneWith 0 (some (sampleFrameMesh 0))) (some 0) false)
        [(sampleSceneWith 0 none, Query.all blankBuffer 4 none false none)]).Triangles =
      [⟨⟨0, 0, 0⟩, ⟨1, 0, 0⟩, ⟨0, 1, 0⟩⟩] ∧
    extractTriangles ((sampleSceneWith 0 none) 0).currentFrameMesh = [] ∧
    (runQueries sampleTests
        (mkAnimated (sampleSceneWith 0 (some (sampleFrameMesh 0))) (some 0) false)
        [(sampleSceneWith 0 none, Query.all blankBuffer 4 none false none)]).Triangles ≠
      extractTriangles ((sampleSceneWith 0 none) 0).currentFrameMesh ∧
    ((mkAnimated (sampleSceneWith 0 (some (sampleFrameMesh 0))) (some 0) false).getTriangles
      (sampleSceneWith 0 none) blankBuffer 4 none false none).2.outTriangleCount = 1 := by
  decide

end irr

namespace irr
open CTriangleSelector

/-! ## C5: box rejection -/

/-- C5. For every selector and every query box that does not intersect the selector's cached
global bounding box (the cache the query consults, that is, the one its freshness check
leaves), the box-filtered query reports outTriangleCount = 0 and writes nothing: the caller's
triangle memory and outTriangleInfo array are as before, whatever the triangles, the
transform and the capacity. -/
theorem getTrianglesBox_rejects_disjoint (scene : Scene) (s : CTriangleSelector)
    (buf : TriangleBuffer) (arraySize : Int) (box : aabbox3df) (transform : Option matrix4)
    (useNodeTransform : Bool) (info : Option (List SCollisionTriangleRange))
    (h : (s.update scene).BoundingBox.intersectsWithBox box = false) :
    (s.getTrianglesBox scene buf arraySize box transform useNodeTransform
        info).2.outTriangleCount = 0 ∧
    (s.getTrianglesBox scene buf arraySize box transform useNodeTransform info).2.triangles =
      buf ∧
    (s.getTrianglesBox scene buf arraySize box transform useNodeTransform
        info).2.outTriangleInfo = info := by
  simp [getTrianglesBox, h]

/-- Witness for C5: the selector of the one-triangle mesh of frame 0, whose cached box is
[(0,0,0),(1,1,0)], asked for the triangles inside the box [(5,5,5),(6,6,6)]. -/
theorem getTrianglesBox_rejects_disjoint_witness :
    ((mkMesh (some (sampleFrameMesh 0)) none false).update (sampleScene 0)).BoundingBox =
      ⟨⟨0, 0, 0⟩, ⟨1, 1, 0⟩⟩ ∧
    ((mkMesh (some (sampleFrameMesh 0)) none false).getTrianglesBox (sampleScene 0) blankBuffer
        100 ⟨⟨5, 5, 5⟩, ⟨6, 6, 6⟩⟩ none false none).2.outTriangleCount = 0 :=
  ⟨by decide,
   (getTrianglesBox_rejects_disjoint (sampleScene 0) (mkMesh (some (sampleFrameMesh 0)) none false)
      blankBuffer 100 ⟨⟨5, 5, 5⟩, ⟨6, 6, 6⟩⟩ none false none (by decide)).1⟩

end irr

namespace irr
open CTriangleSelector

/-! ## C6: the selector of a box -/

/-- C6. For every bounding box with non-zero extent on each axis (every valid one among
them), the selector built from the box alone has getTriangleCount() = 12 and the single
range {0,12,none,0}; none of the 12 triangles is degenerate, every point of every triangle
is a corner of the box, and for each of the 6 faces exactly two of the triangles lie in the
face's plane and these two split the face along a diagonal. -/
theorem mkBox_twelve_triangles (box : aabbox3df) (node : Option Nat)
    (hx : box.MinEdge.X ≠ box.MaxEdge.X)
    (hy : box.MinEdge.Y ≠ box.MaxEdge.Y) (hz : box.MinEdge.Z ≠ box.MaxEdge.Z) :
    (mkBox box node).getTriangleCount = 12 ∧
    (mkBox box node).rangeTable = [⟨0, 12, none, 0⟩] ∧
    (∀ t ∈ (mkBox box node).Triangles,
      t.isDegenerate = false ∧ ∀ p ∈ t.points, box.isCorner p = true) ∧
    (∀ f ∈ allFaces, ∃ t1 t2,
      trianglesOnFace box f.1 f.2 (mkBox box node).Triangles = [t1, t2] ∧
        box.splitsFace f.1 f.2 t1 t2 = true) := by
  have hx2 := Ne.symm hx
  have hy2 := Ne.symm hy
  have hz2 := Ne.symm hz
  refine ⟨rfl, rfl, ?_, ?_⟩
  · simp [mkBox, aabbox3df.getTriangles, aabbox3df.getEdge, triangle3df.isDegenerate,
      triangle3df.crossProduct, triangle3df.points, aabbox3df.isCorner, sub_eq_zero,
      hx, hy, hz, hx2, hy2, hz2]
  · intro f hf
    simp only [allFaces, List.mem_cons, List.mem_singleton, List.not_mem_nil, or_false] at hf
    rcases hf with rfl | rfl | rfl | rfl | rfl | rfl
    all_goals
      simp [mkBox, aabbox3df.getTriangles, aabbox3df.getEdge, trianglesOnFace,
        triangle3df.onFace, triangle3df.points, aabbox3df.faceCoord, vector3df.coord,
        aabbox3df.splitsFace, aabbox3df.faceCorners, oppositeOnFace, List.range,
        List.range.loop, List.filter, hx, hy, hz, hx2, hy2, hz2]
      refine ⟨_, _, ⟨rfl, rfl⟩, ?_⟩
      simp [hx, hy, hz, hx2, hy2, hz2]

/-- Witness for C6 (Scenario A of the spec): the box [(0,0,0),(1,1,1)] is valid, gives 12
triangles, none degenerate, all points corners of the box, all components in [0,1], and the
unrestricted query with room for 12 returns 12. -/
theorem mkBox_twelve_triangles_witness :
    unitBox.isValid = true ∧
    (mkBox unitBox none).getTriangleCount = 12 ∧
    (∀ t ∈ (mkBox unitBox none).Triangles,
      t.isDegenerate = false ∧ ∀ p ∈ t.points, unitBox.isCorner p = true) ∧
    ((mkBox unitBox none).Triangles.all fun t => t.componentsWithin 0 1) = true ∧
    ((mkBox unitBox none).getTriangles (sampleScene 0) blankBuffer 12 none false
      none).2.outTriangleCount = 12 :=
  ⟨by decide,
   (mkBox_twelve_triangles unitBox none (by decide) (by decide) (by decide)).1,
   (mkBox_twelve_triangles unitBox none (by decide) (by decide) (by decide)).2.2.1,
   by decide, by decide⟩

end irr

namespace irr
open CTriangleSelector

/-! ## C7: null sources -/

theorem runQueries_of_not_animated (tests : SegmentTests) (qs : List (Scene × Query))
    (s : CTriangleSelector) (h : s.AnimatedNode = none) : runQueries tests s qs = s := by
  induction qs with
  | nil => rfl
  | cons p rest ih =>
    obtain ⟨scene, q⟩ := p
    simp only [runQueries, Query.run_fst, update_of_not_animated scene s h]
    exact ih

theorem emit_nil_count (s : CTriangleSelector) (buf : TriangleBuffer) (arraySize : Int)
    (info : Option (List SCollisionTriangleRange)) :
    (emit s [] buf arraySize info).outTriangleCount = 0 := by
  simp [emit]

theorem Query.run_count_of_empty (tests : SegmentTests) (scene : Scene)
    (s : CTriangleSelector) (q : Query) (h : s.AnimatedNode = none) (ht : s.Triangles = []) :
    (q.run tests scene s).2.outTriangleCount = 0 := by
  have hu := update_of_not_animated scene s h
  cases q with
  | all triangles arraySize transform useNodeTransform info =>
    simp [Query.run, getTriangles, hu, ht, indexFrom, emit_nil_count]
  | box triangles arraySize queryBox transform useNodeTransform info =>
    simp only [Query.run, getTrianglesBox, hu, ht]
    split
    · simp [indexFrom, emit_nil_count]
    · rfl
  | line triangles arraySize queryLine transform useNodeTransform info =>
    simp only [Query.run, getTrianglesLine, hu, ht]
    split
    · simp [indexFrom, emit_nil_count]
    · rfl

/-- C7. A selector constructed from a null mesh, a null mesh buffer or a null animated node
is a selector (the constructors are total) with getTriangleCount() = 0, an empty triangle
sequence and an empty range table, and every query on it, after any earlier queries, reports
outTriangleCount = 0. -/
theorem null_source_gives_empty_selector (tests : SegmentTests) (s : CTriangleSelector)
    (h : (∃ node separateMeshbuffers, s = mkMesh none node separateMeshbuffers) ∨
      (∃ materialIndex node, s = mkMeshBuffer none materialIndex node) ∨
      (∃ scene0 separateMeshbuffers, s = mkAnimated scene0 none separateMeshbuffers)) :
    s.getTriangleCount = 0 ∧ s.Triangles = [] ∧ s.rangeTable = [] ∧
    ∀ (qs : List (Scene × Query)) (scene : Scene) (q : Query),
      (q.run tests scene (runQueries tests s qs)).2.outTriangleCount = 0 := by
  have key : s.AnimatedNode = none ∧ s.Triangles = [] ∧ s.rangeTable = [] := by
    rcases h with ⟨node, sep, rfl⟩ | ⟨materialIndex, node, rfl⟩ | ⟨scene0, sep, rfl⟩
    · exact ⟨rfl, rfl, rfl⟩
    · exact ⟨rfl, rfl, rfl⟩
    · exact ⟨rfl, rfl, rfl⟩
  obtain ⟨ha, ht, hr⟩ := key
  refine ⟨by simp [getTriangleCount, ht], ht, hr, fun qs scene q => ?_⟩
  rw [runQueries_of_not_animated tests qs s ha]
  exact Query.run_count_of_empty tests scene s q ha ht

/-- Witness for C7: the selector of a null mesh, asked for the triangles in the unit box. -/
theorem null_source_gives_empty_selector_witness :
    (mkMesh none (some 1) true).rangeTable = [] ∧
    ((Query.box blankBuffer 8 unitBox none true none).run sampleTests (sampleScene 0)
      (runQueries sampleTests (mkMesh none (some 1) true) [])).2.outTriangleCount = 0 :=
  ⟨(null_source_gives_empty_selector sampleTests (mkMesh none (some 1) true)
      (Or.inl ⟨some 1, true, rfl⟩)).2.2.1,
   (null_source_gives_empty_selector sampleTests (mkMesh none (some 1) true)
      (Or.inl ⟨some 1, true, rfl⟩)).2.2.2 [] (sampleScene 0)
      (Query.box blankBuffer 8 unitBox none true none)⟩

/-! ## C8: the scene node of a triangle -/

/-- C8. For every selector and every triangleIndex, getSceneNodeForTriangle returns the
selector's SceneNode: the result is the same for any two indices (also at or beyond
getTriangleCount()) and does not change when the range members are replaced. -/
theorem getSceneNodeForTriangle_is_owner (s : CTriangleSelector) (triangleIndex : Nat) :
    s.getSceneNodeForTriangle triangleIndex = s.SceneNode ∧
    (∀ otherIndex : Nat,
      s.getSceneNodeForTriangle otherIndex = s.getSceneNodeForTriangle triangleIndex) ∧
    (∀ (single : SBufferTriangleRange) (ranges : List SBufferTriangleRange),
      ({ s with SingleBufferRange := single, BufferRanges := ranges }).getSceneNodeForTriangle
        triangleIndex = s.getSceneNodeForTriangle triangleIndex) :=
  ⟨rfl, fun _ => rfl, fun _ _ => rfl⟩

end irr

namespace irr
open CTriangleSelector

/-! ## C9: the unrestricted query repeated -/

/-- A selector that has just been brought up to date stays as it is while the frame number
stays. -/
theorem update_update (scene1 scene2 : Scene) (s : CTriangleSelector)
    (hframe : ∀ n, s.AnimatedNode = some n →
      (scene2 n).currentFrameNumber = (scene1 n).currentFrameNumber) :
    (s.update scene1).update scene2 = s.update scene1 := by
  cases hn : s.AnimatedNode with
  | none =>
    exact update_of_not_animated scene2 _ (by rw [update_animatedNode, hn])
  | some n =>
    have ha : (s.update scene1).AnimatedNode = some n := by rw [update_animatedNode, hn]
    have hl := update_lastMeshFrame scene1 s n hn
    exact update_of_frame_eq scene2 _ n ha (by rw [hl, hframe n hn])

theorem queryTransform_congr (scene1 scene2 : Scene) (s : CTriangleSelector)
    (transform : Option matrix4) (useNodeTransform : Bool)
    (hnode : ∀ n, s.SceneNode = some n → (scene2 n).worldTransform = (scene1 n).worldTransform) :
    queryTransform scene2 s transform useNodeTransform =
      queryTransform scene1 s transform useNodeTransform := by
  unfold queryTransform
  cases hs : s.SceneNode with
  | none => rfl
  | some n => simp only [hnode n hs]

/-- C9. Calling the unrestricted query twice in succession with the same arguments, with the
animated node's frame number and the scene node's world transform as they were at the first
call, yields the same outTriangleCount, the same triangles at the written indices (wherever
the second call's buffer starts from; the whole buffer is as after the first call when it is
the same buffer), the same outTriangleInfo when both calls start from the same array
contents, and the second call leaves the selector's state unchanged. -/
theorem getTriangles_idempotent (scene1 scene2 : Scene) (s : CTriangleSelector)
    (buf buf2 : TriangleBuffer) (arraySize : Int) (transform : Option matrix4)
    (useNodeTransform : Bool) (info : Option (List SCollisionTriangleRange))
    (hframe : ∀ n, s.AnimatedNode = some n →
      (scene2 n).currentFrameNumber = (scene1 n).currentFrameNumber)
    (hnode : ∀ n, s.SceneNode = some n →
      (scene2 n).worldTransform = (scene1 n).worldTransform) :
    let r1 := s.getTriangles scene1 buf arraySize transform useNodeTransform info
    let r2 := r1.1.getTriangles scene2 buf2 arraySize transform useNodeTransform info
    r2.2.outTriangleCount = r1.2.outTriangleCount ∧
    (∀ i : Nat, (i : Int) < r1.2.outTriangleCount → r2.2.triangles i = r1.2.triangles i) ∧
    (r1.1.getTriangles scene2 r1.2.triangles arraySize transform useNodeTransform
      info).2.triangles = r1.2.triangles ∧
    r2.2.outTriangleInfo = r1.2.outTriangleInfo ∧
    r2.1 = r1.1 := by
  intro r1 r2
  have hu : (s.update scene1).update scene2 = s.update scene1 :=
    update_update scene1 scene2 s hframe
  have hm : queryTransform scene2 (s.update scene1) transform useNodeTransform =
      queryTransform scene1 (s.update scene1) transform useNodeTransform :=
    queryTransform_congr scene1 scene2 _ transform useNodeTransform
      (fun n hn => hnode n (by rw [← update_sceneNode scene1 s]; exact hn))
  have e1 : r1 = ((s.update scene1), emit (s.update scene1)
      (indexFrom 0 ((s.update scene1).Triangles.map
        (queryTransform scene1 (s.update scene1) transform useNodeTransform).transformTriangle))
      buf arraySize info) := rfl
  have e2 : ∀ b : TriangleBuffer,
      r1.1.getTriangles scene2 b arraySize transform useNodeTransform info =
      ((s.update scene1), emit (s.update scene1)
        (indexFrom 0 ((s.update scene1).Triangles.map
          (queryTransform scene1 (s.update scene1) transform
            useNodeTransform).transformTriangle))
        b arraySize info) := by
    intro b
    simp only [e1, getTriangles, hu, hm]
  have hr2 : r2 = _ := e2 buf2
  rw [hr2, e2, e1]
  refine ⟨rfl, ?_, ?_, rfl, rfl⟩
  · intro i hi
    simp only [emit_count] at hi
    simp only [emit_triangles, writeTriangles]
    have hi2 : i < ((List.map Prod.snd (indexFrom 0 ((s.update scene1).Triangles.map
        (queryTransform scene1 (s.update scene1) transform
          useNodeTransform).transformTriangle))).take arraySize.toNat).length := by
      rw [List.length_take, List.length_map]
      exact_mod_cast hi
    simp only [hi2, dif_pos]
  · funext i
    simp only [emit_triangles, writeTriangles]
    split <;> rfl

/-- Witness for C9: the animated sample selector, first queried when the node has moved on
to frame 1, then queried again at frame 1. -/
theorem getTriangles_idempotent_witness :
    ((mkAnimated (sampleScene 0) (some 0) false).getTriangles (sampleScene 1) blankBuffer 4
        none true (some [])).1.getTriangles (sampleScene 1) blankBuffer 4 none true (some []) =
      (((mkAnimated (sampleScene 0) (some 0) false).getTriangles (sampleScene 1) blankBuffer 4
        none true (some [])).1,
       ((mkAnimated (sampleScene 0) (some 0) false).getTriangles (sampleScene 1) blankBuffer 4
        none true (some [])).2) ∧
    (((mkAnimated (sampleScene 0) (some 0) false).getTriangles (sampleScene 1) blankBuffer 4
        none true (some [])).1.getTriangles (sampleScene 1) blankBuffer 4 none true
          (some [])).2.outTriangleCount = 1 ∧
    (((mkAnimated (sampleScene 0) (some 0) false).getTriangles (sampleScene 1) blankBuffer 4
        none true (some [])).1.getTriangles (sampleScene 1) blankBuffer 4 none true
          (some [])).1 =
      ((mkAnimated (sampleScene 0) (some 0) false).getTriangles (sampleScene 1) blankBuffer 4
        none true (some [])).1 :=
  ⟨rfl, by decide,
   (getTriangles_idempotent (sampleScene 1) (sampleScene 1)
      (mkAnimated (sampleScene 0) (some 0) false) blankBuffer blankBuffer 4 none true (some [])
      (fun _ _ => rfl) (fun _ _ => rfl)).2.2.2.2⟩

/-! ## C10: the number of selectors -/

/-- C10. For every CTriangleSelector, however it was constructed and whatever queries it has
served, getSelectorCount() returns 1. -/
theorem getSelectorCount_is_one :
    (∀ s : CTriangleSelector, s.getSelectorCount = 1) ∧
    (∀ (tests : SegmentTests) (s0 : CTriangleSelector) (qs : List (Scene × Query)),
      (runQueries tests s0 qs).getSelectorCount = 1) :=
  ⟨fun _ => rfl, fun _ _ _ => rfl⟩

end irr

namespace irr

/-! ## C11: SMesh::recalculateBoundingBox -/

theorem addInternalBox_of_valid (acc bb : aabbox3df) (h : bb.isValid = true) :
    acc.addInternalBox bb =
      ⟨⟨min acc.MinEdge.X bb.MinEdge.X, min acc.MinEdge.Y bb.MinEdge.Y,
        min acc.MinEdge.Z bb.MinEdge.Z⟩,
       ⟨max acc.MaxEdge.X bb.MaxEdge.X, max acc.MaxEdge.Y bb.MaxEdge.Y,
        max acc.MaxEdge.Z bb.MaxEdge.Z⟩⟩ := by
  simp only [aabbox3df.isValid, Bool.and_eq_true, decide_eq_true_eq] at h
  obtain ⟨⟨hx, hy⟩, hz⟩ := h
  simp only [aabbox3df.addInternalBox, aabbox3df.addInternalPoint, aabbox3df.mk.injEq,
    vector3df.mk.injEq]
  refine ⟨⟨?_, ?_, ?_⟩, ?_, ?_, ?_⟩ <;> omega

theorem foldl_addInternalBox_of_valid (bs : List aabbox3df) (acc : aabbox3df)
    (h : ∀ bb ∈ bs, bb.isValid = true) :
    bs.foldl aabbox3df.addInternalBox acc =
      bs.foldl (fun acc bb =>
        ⟨⟨min acc.MinEdge.X bb.MinEdge.X, min acc.MinEdge.Y bb.MinEdge.Y,
          min acc.MinEdge.Z bb.MinEdge.Z⟩,
         ⟨max acc.MaxEdge.X bb.MaxEdge.X, max acc.MaxEdge.Y bb.MaxEdge.Y,
          max acc.MaxEdge.Z bb.MaxEdge.Z⟩⟩) acc := by
  induction bs generalizing acc with
  | nil => rfl
  | cons b bs ih =>
    simp only [List.foldl_cons]
    rw [addInternalBox_of_valid acc b (h b (List.mem_cons_self _ _))]
    exact ih _ (fun bb hbb => h bb (List.mem_cons_of_mem _ hbb))

theorem recalculateLoop_started (bufs : List SSkinMeshBuffer) (acc : aabbox3df) :
    SMesh.recalculateLoop bufs (true, acc) =
      (true, ((bufs.map SSkinMeshBuffer.getBoundingBox).filter aabbox3df.isValid).foldl
        aabbox3df.addInternalBox acc) := by
  induction bufs generalizing acc with
  | nil => rfl
  | cons mb rest ih =>
    cases hv : mb.getBoundingBox.isValid with
    | true =>
      have h1 : SMesh.recalculateLoop (mb :: rest) (true, acc) =
          SMesh.recalculateLoop rest (true, acc.addInternalBox mb.getBoundingBox) := by
        simp [SMesh.recalculateLoop, hv]
      rw [h1, ih, List.map_cons, List.filter_cons_of_pos hv, List.foldl_cons]
    | false =>
      have h1 : SMesh.recalculateLoop (mb :: rest) (true, acc) =
          SMesh.recalculateLoop rest (true, acc) := by
        simp [SMesh.recalculateLoop, hv]
      rw [h1, ih, List.map_cons, List.filter_cons_of_neg (by simp [hv])]

theorem recalculateLoop_fresh (bufs : List SSkinMeshBuffer) (box0 : aabbox3df) :
    SMesh.recalculateLoop bufs (false, box0) =
      match (bufs.map SSkinMeshBuffer.getBoundingBox).filter aabbox3df.isValid with
      | [] => (false, box0)
      | b :: bs => (true, bs.foldl aabbox3df.addInternalBox b) := by
  induction bufs with
  | nil => rfl
  | cons mb rest ih =>
    cases hv : mb.getBoundingBox.isValid with
    | true =>
      have h1 : SMesh.recalculateLoop (mb :: rest) (false, box0) =
          SMesh.recalculateLoop rest (true, mb.getBoundingBox) := by
        simp [SMesh.recalculateLoop, hv]
      rw [h1, recalculateLoop_started, List.map_cons, List.filter_cons_of_pos hv]
    | false =>
      have h1 : SMesh.recalculateLoop (mb :: rest) (false, box0) =
          SMesh.recalculateLoop rest (false, box0) := by
        simp [SMesh.recalculateLoop, hv]
      rw [h1, ih, List.map_cons, List.filter_cons_of_neg (by simp [hv])]

theorem validBoxes_valid (m : SMesh) : ∀ bb ∈ m.validBoxes, bb.isValid = true := by
  intro bb hbb
  exact (List.mem_filter.mp hbb).2

/-- The box recalculateBoundingBox() leaves is the union of the valid buffer boxes. -/
theorem recalculateBoundingBox_eq_union (m : SMesh) :
    m.recalculateBoundingBox.BoundingBox = unionOfBoxes m.validBoxes := by
  have hv := validBoxes_valid m
  have hloop := recalculateLoop_fresh m.MeshBuffers m.BoundingBox
  have hvb : (m.MeshBuffers.map SSkinMeshBuffer.getBoundingBox).filter aabbox3df.isValid =
      m.validBoxes := rfl
  rw [hvb] at hloop
  unfold SMesh.recalculateBoundingBox
  cases hb : m.validBoxes with
  | nil =>
    rw [hb] at hloop
    simp [hloop, unionOfBoxes]
  | cons b bs =>
    rw [hb] at hloop hv
    simp only [hloop, Bool.not_true, Bool.false_eq_true, if_false, unionOfBoxes]
    exact foldl_addInternalBox_of_valid bs b (fun bb hbb => hv bb (List.mem_cons_of_mem _ hbb))

theorem encloses_iff (outer inner : aabbox3df) :
    outer.encloses inner = true ↔
      (outer.MinEdge.X ≤ inner.MinEdge.X ∧ outer.MinEdge.Y ≤ inner.MinEdge.Y ∧
        outer.MinEdge.Z ≤ inner.MinEdge.Z) ∧
      (inner.MaxEdge.X ≤ outer.MaxEdge.X ∧ inner.MaxEdge.Y ≤ outer.MaxEdge.Y ∧
        inner.MaxEdge.Z ≤ outer.MaxEdge.Z) := by
  simp only [aabbox3df.encloses, Bool.and_eq_true, decide_eq_true_eq]
  tauto

/-- Folding the union step: the result holds the start box and every box folded in, and
every box that holds all of them holds the result. -/
theorem foldl_union_spec (bs : List aabbox3df) (acc : aabbox3df) :
    let r := bs.foldl (fun acc bb =>
      (⟨⟨min acc.MinEdge.X bb.MinEdge.X, min acc.MinEdge.Y bb.MinEdge.Y,
        min acc.MinEdge.Z bb.MinEdge.Z⟩,
       ⟨max acc.MaxEdge.X bb.MaxEdge.X, max acc.MaxEdge.Y bb.MaxEdge.Y,
        max acc.MaxEdge.Z bb.MaxEdge.Z⟩⟩ : aabbox3df)) acc
    r.encloses acc = true ∧ (∀ bb ∈ bs, r.encloses bb = true) ∧
    ∀ box : aabbox3df, box.encloses acc = true → (∀ bb ∈ bs, box.encloses bb = true) →
      box.encloses r = true := by
  induction bs generalizing acc with
  | nil =>
    intro r
    refine ⟨?_, ?_, ?_⟩
    · rw [encloses_iff]; simp [r]
    · intro bb hbb; simp at hbb
    · intro box h _; exact h
  | cons b bs ih =>
    intro r
    obtain ⟨h1, h2, h3⟩ := ih
      (⟨⟨min acc.MinEdge.X b.MinEdge.X, min acc.MinEdge.Y b.MinEdge.Y,
        min acc.MinEdge.Z b.MinEdge.Z⟩,
       ⟨max acc.MaxEdge.X b.MaxEdge.X, max acc.MaxEdge.Y b.MaxEdge.Y,
        max acc.MaxEdge.Z b.MaxEdge.Z⟩⟩ : aabbox3df)
    simp only [encloses_iff] at h1 h2 h3 ⊢
    refine ⟨?_, ?_, ?_⟩
    · simp only [r, List.foldl_cons]
      refine ⟨⟨?_, ?_, ?_⟩, ?_, ?_, ?_⟩ <;> omega
    · intro bb hbb
      rcases List.mem_cons.mp hbb with rfl | hmem
      · simp only [r, List.foldl_cons]
        refine ⟨⟨?_, ?_, ?_⟩, ?_, ?_, ?_⟩ <;> omega
      · exact h2 bb hmem
    · intro box hacc hall
      have hb := hall b (List.mem_cons_self _ _)
      apply h3 box
      · refine ⟨⟨?_, ?_, ?_⟩, ?_, ?_, ?_⟩ <;> omega
      · intro bb hbb
        exact hall bb (List.mem_cons_of_mem _ hbb)

/-- C11. After SMesh::recalculateBoundingBox() the buffers are as before and BoundingBox is
the union of the bounding boxes of exactly the buffers whose box isValid(): it holds each of
these boxes, every box that holds them all holds it (so it is the smallest such box), it is
the box the same mesh without its invalid-box buffers gets, and it is the sentinel
aabbox3df(1,-1) when no buffer has a valid box, in particular for a mesh without buffers. -/
theorem SMesh_recalculateBoundingBox_union (m : SMesh) :
    m.recalculateBoundingBox.MeshBuffers = m.MeshBuffers ∧
    m.recalculateBoundingBox.BoundingBox = unionOfBoxes m.validBoxes ∧
    (∀ mb ∈ m.MeshBuffers, mb.getBoundingBox.isValid = true →
      m.recalculateBoundingBox.BoundingBox.encloses mb.getBoundingBox = true) ∧
    (∀ box : aabbox3df, (∃ mb ∈ m.MeshBuffers, mb.getBoundingBox.isValid = true) →
      (∀ mb ∈ m.MeshBuffers, mb.getBoundingBox.isValid = true →
        box.encloses mb.getBoundingBox = true) →
      box.encloses m.recalculateBoundingBox.BoundingBox = true) ∧
    (∀ box0 : aabbox3df,
      m.recalculateBoundingBox.BoundingBox =
        (SMesh.recalculateBoundingBox
          ⟨m.MeshBuffers.filter fun mb => mb.getBoundingBox.isValid, box0⟩).BoundingBox) ∧
    ((∀ mb ∈ m.MeshBuffers, mb.getBoundingBox.isValid = false) →
      m.recalculateBoundingBox.BoundingBox = aabbox3df.sentinel) ∧
    (SMesh.recalculateBoundingBox ⟨[], m.BoundingBox⟩).BoundingBox = aabbox3df.sentinel := by
  have hmem : ∀ bb, bb ∈ m.validBoxes ↔
      ∃ mb ∈ m.MeshBuffers, mb.getBoundingBox = bb ∧ bb.isValid = true := by
    intro bb
    simp only [SMesh.validBoxes, List.mem_filter, List.mem_map]
    constructor
    · rintro ⟨⟨mb, h1, h2⟩, h3⟩; exact ⟨mb, h1, h2, h3⟩
    · rintro ⟨mb, h1, h2, h3⟩; exact ⟨⟨mb, h1, h2⟩, h3⟩
  refine ⟨?_, recalculateBoundingBox_eq_union m, ?_, ?_, ?_, ?_, ?_⟩
  · unfold SMesh.recalculateBoundingBox
    dsimp only
    split_ifs <;> rfl
  · intro mb hmb hv
    rw [recalculateBoundingBox_eq_union]
    have hin : mb.getBoundingBox ∈ m.validBoxes := (hmem _).mpr ⟨mb, hmb, rfl, hv⟩
    cases hb : m.validBoxes with
    | nil => rw [hb] at hin; simp at hin
    | cons b bs =>
      rw [hb] at hin
      obtain ⟨h1, h2, _⟩ := foldl_union_spec bs b
      rcases List.mem_cons.mp hin with heq | hmem2
      · rw [heq]; exact h1
      · exact h2 _ hmem2
  · intro box hex hall
    rw [recalculateBoundingBox_eq_union]
    obtain ⟨mb0, hmb0, hv0⟩ := hex
    have hall2 : ∀ bb ∈ m.validBoxes, box.encloses bb = true := by
      intro bb hbb
      obtain ⟨mb, h1, h2, h3⟩ := (hmem bb).mp hbb
      rw [← h2]
      exact hall mb h1 (by rw [h2]; exact h3)
    cases hb : m.validBoxes with
    | nil =>
      have hin : mb0.getBoundingBox ∈ m.validBoxes := (hmem _).mpr ⟨mb0, hmb0, rfl, hv0⟩
      rw [hb] at hin; simp at hin
    | cons b bs =>
      rw [hb] at hall2
      obtain ⟨_, _, h3⟩ := foldl_union_spec bs b
      exact h3 box (hall2 b (List.mem_cons_self _ _))
        (fun bb hbb => hall2 bb (List.mem_cons_of_mem _ hbb))
  · intro box0
    rw [recalculateBoundingBox_eq_union, recalculateBoundingBox_eq_union]
    congr 1
    simp only [SMesh.validBoxes, List.filter_map, List.filter_filter]
    congr 1
    apply List.filter_congr
    intro mb _
    simp
  · intro hall
    rw [recalculateBoundingBox_eq_union]
    have : m.validBoxes = [] := by
      apply List.eq_nil_iff_forall_not_mem.mpr
      intro bb hbb
      obtain ⟨mb, h1, h2, h3⟩ := (hmem bb).mp hbb
      have := hall mb h1
      rw [h2, h3] at this
      exact Bool.noConfusion this
    rw [this]
    rfl
  · rfl

end irr

namespace irr

/-- Witness for C11: a mesh whose buffers have the boxes [(0,0,0),(1,2,1)], the sentinel
(not valid) and [(-1,0,0),(3,1,1)], and whose old box is [(5,5,5),(6,6,6)], gets
[(-1,0,0),(3,2,1)], which holds the first buffer's box. -/
theorem SMesh_recalculateBoundingBox_union_witness :
    sampleSMesh.recalculateBoundingBox.BoundingBox = ⟨⟨-1, 0, 0⟩, ⟨3, 2, 1⟩⟩ ∧
    sampleSMesh.recalculateBoundingBox.BoundingBox.encloses ⟨⟨0, 0, 0⟩, ⟨1, 2, 1⟩⟩ = true :=
  ⟨(SMesh_recalculateBoundingBox_union sampleSMesh).2.1.trans (by decide),
   (SMesh_recalculateBoundingBox_union sampleSMesh).2.2.1
     (sampleSkinBuffer ⟨E_MATERIAL_TYPE.other 0, 7, false⟩ ⟨⟨0, 0, 0⟩, ⟨1, 2, 1⟩⟩)
     (List.mem_cons_self _ _) (by decide)⟩

end irr

namespace irr

/-! ## C12: SMesh::getMeshBuffer(material) -/

/-- The reverse loop started with `k` iterations to go: either nothing below index `k`
matches and the result is null, or the result is the buffer at the highest matching index
below `k`. -/
theorem getMeshBufferLoop_spec (m : SMesh) (material : SMaterial) (k : Nat) :
    (m.getMeshBufferLoop material k = none ∧
      ∀ (i : Nat) (mb : SSkinMeshBuffer), i < k → m.MeshBuffers[i]? = some mb →
        mb.getMaterial ≠ material) ∨
    (∃ (i : Nat) (mb : SSkinMeshBuffer), i < k ∧ m.MeshBuffers[i]? = some mb ∧
      mb.getMaterial = material ∧
      (∀ (j : Nat) (mb2 : SSkinMeshBuffer), i < j → j < k → m.MeshBuffers[j]? = some mb2 →
        mb2.getMaterial ≠ material) ∧
      m.getMeshBufferLoop material k = some mb) := by
  induction k with
  | zero =>
    left
    exact ⟨rfl, fun i mb hi => absurd hi (Nat.not_lt_zero i)⟩
  | succ k ih =>
    cases hk : m.MeshBuffers[k]? with
    | none =>
      have hloop : m.getMeshBufferLoop material (k + 1) = m.getMeshBufferLoop material k := by
        simp [SMesh.getMeshBufferLoop, hk]
      rw [hloop]
      rcases ih with ⟨h1, h2⟩ | ⟨i, mb, hi, hmb, hmat, hhigh, hres⟩
      · left
        refine ⟨h1, fun i mb hi hmb => ?_⟩
        rcases Nat.lt_succ_iff_lt_or_eq.mp hi with hlt | heq
        · exact h2 i mb hlt hmb
        · rw [heq, hk] at hmb; exact absurd hmb (by simp)
      · right
        refine ⟨i, mb, Nat.lt_succ_of_lt hi, hmb, hmat, fun j mb2 hij hj hmb2 => ?_, hres⟩
        rcases Nat.lt_succ_iff_lt_or_eq.mp hj with hlt | heq
        · exact hhigh j mb2 hij hlt hmb2
        · rw [heq, hk] at hmb2; exact absurd hmb2 (by simp)
    | some mbk =>
      by_cases hm : material = mbk.getMaterial
      · right
        refine ⟨k, mbk, Nat.lt_succ_self k, hk, hm.symm, fun j mb2 hkj hj => ?_, ?_⟩
        · omega
        · simp [SMesh.getMeshBufferLoop, hk, hm]
      · have hloop : m.getMeshBufferLoop material (k + 1) = m.getMeshBufferLoop material k := by
          simp [SMesh.getMeshBufferLoop, hk, hm]
        rw [hloop]
        rcases ih with ⟨h1, h2⟩ | ⟨i, mb, hi, hmb, hmat, hhigh, hres⟩
        · left
          refine ⟨h1, fun i mb hi hmb => ?_⟩
          rcases Nat.lt_succ_iff_lt_or_eq.mp hi with hlt | heq
          · exact h2 i mb hlt hmb
          · rw [heq, hk] at hmb
            simp only [Option.some.injEq] at hmb
            rw [← hmb]
            exact fun h => hm h.symm
        · right
          refine ⟨i, mb, Nat.lt_succ_of_lt hi, hmb, hmat, fun j mb2 hij hj hmb2 => ?_, hres⟩
          rcases Nat.lt_succ_iff_lt_or_eq.mp hj with hlt | heq
          · exact hhigh j mb2 hij hlt hmb2
          · rw [heq, hk] at hmb2
            simp only [Option.some.injEq] at hmb2
            rw [← hmb2]
            exact fun h => hm h.symm

theorem toS32_of_lt (n : Nat) (h : n < 2 ^ 31) : (toS32 n - 1 + 1).toNat = n := by
  have h1 : n % 2 ^ 32 = n := Nat.mod_eq_of_lt (by omega)
  simp only [toS32, h1, h, if_true]
  omega

/-- C12, as amended.  For a mesh with fewer than 2^31 mesh buffers (so that the s32 index
holds the buffer count), getMeshBuffer(material) returns null if and only if no buffer of
the mesh has an equal material, and otherwise returns the buffer at the highest index whose
material equals the given one; for an empty mesh it returns null. -/
theorem SMesh_getMeshBuffer_reverse (m : SMesh) (material : SMaterial)
    (h : m.MeshBuffers.length < 2 ^ 31) :
    (m.getMeshBuffer material = none ↔ ∀ mb ∈ m.MeshBuffers, mb.getMaterial ≠ material) ∧
    (∀ (i : Nat) (mb : SSkinMeshBuffer), m.MeshBuffers[i]? = some mb →
      mb.getMaterial = material →
      (∀ (j : Nat) (mb2 : SSkinMeshBuffer), i < j → m.MeshBuffers[j]? = some mb2 →
        mb2.getMaterial ≠ material) →
      m.getMeshBuffer material = some mb) ∧
    SMesh.construct.getMeshBuffer material = none := by
  have hstart : m.getMeshBuffer material =
      m.getMeshBufferLoop material m.MeshBuffers.length := by
    unfold SMesh.getMeshBuffer
    rw [toS32_of_lt _ h]
  have hlt : ∀ i mb, m.MeshBuffers[i]? = some mb → i < m.MeshBuffers.length := by
    intro i mb hi
    by_contra hge
    rw [List.getElem?_eq_none (Nat.le_of_not_lt hge)] at hi
    exact absurd hi (by simp)
  refine ⟨?_, ?_, rfl⟩
  · rw [hstart]
    constructor
    · intro hnone mb hmb
      rcases getMeshBufferLoop_spec m material m.MeshBuffers.length with
        ⟨_, h2⟩ | ⟨i, mb1, _, _, _, _, hres⟩
      · obtain ⟨i, hi, hget⟩ := List.mem_iff_getElem.mp hmb
        exact h2 i mb hi (by rw [List.getElem?_eq_getElem hi, hget])
      · rw [hres] at hnone; exact absurd hnone (by simp)
    · intro hall
      rcases getMeshBufferLoop_spec m material m.MeshBuffers.length with
        ⟨h1, _⟩ | ⟨i, mb1, _, hmb1, hmat, _, _⟩
      · exact h1
      · exact absurd hmat (hall mb1 (List.getElem?_mem hmb1))
  · intro i mb hmb hmat hhigh
    rw [hstart]
    rcases getMeshBufferLoop_spec m material m.MeshBuffers.length with
      ⟨_, h2⟩ | ⟨i1, mb1, hi1, hmb1, hmat1, hhigh1, hres⟩
    · exact absurd hmat (h2 i mb (hlt i mb hmb) hmb)
    · rw [hres]
      rcases Nat.lt_trichotomy i i1 with hlt1 | heq | hgt
      · exact absurd hmat1 (hhigh i1 mb1 hlt1 hmb1)
      · rw [heq, hmb1] at hmb; exact congrArg some (Option.some.inj hmb)
      · exact absurd hmat (hhigh1 i mb hgt (hlt i mb hmb) hmb)

/-- Witness for C12 as amended: in the sample mesh the buffers 0 and 2 have the material
asked for; the search returns buffer 2. -/
theorem SMesh_getMeshBuffer_reverse_witness :
    sampleSMesh.MeshBuffers.length < 2 ^ 31 ∧
    sampleSMesh.getMeshBuffer ⟨E_MATERIAL_TYPE.other 0, 7, false⟩ =
      some (sampleSkinBuffer ⟨E_MATERIAL_TYPE.other 0, 7, false⟩ ⟨⟨-1, 0, 0⟩, ⟨3, 1, 1⟩⟩) :=
  ⟨by decide,
   (SMesh_getMeshBuffer_reverse sampleSMesh ⟨E_MATERIAL_TYPE.other 0, 7, false⟩
      (by decide)).2.1 2 _ rfl rfl
      (by
        intro j mb2 hj hmb2
        have : sampleSMesh.MeshBuffers[j]? = none :=
          List.getElem?_eq_none (by simp [sampleSMesh]; omega)
        rw [this] at hmb2
        exact absurd hmb2 (by simp))⟩

/-- Counterexample to C12 as stated: a mesh of 2^31 + 1 buffers, all with the material
asked for.  The count converted to s32 is negative, the loop is not entered, and
getMeshBuffer returns null although a buffer (indeed every buffer) has an equal material. -/
theorem SMesh_getMeshBuffer_overflow :
    (SMesh.mk (List.replicate (2 ^ 31 + 1) (sampleSkinBuffer SMaterial.default unitBox))
        unitBox).getMeshBuffer SMaterial.default = none ∧
    ∃ mb ∈ (SMesh.mk (List.replicate (2 ^ 31 + 1) (sampleSkinBuffer SMaterial.default unitBox))
        unitBox).MeshBuffers, mb.getMaterial = SMaterial.default := by
  constructor
  · have h : (toS32 (2 ^ 31 + 1) - 1 + 1).toNat = 0 := by decide
    simp only [SMesh.getMeshBuffer, List.length_replicate, h]
    rfl
  · exact ⟨sampleSkinBuffer SMaterial.default unitBox,
      List.mem_replicate.mpr ⟨by norm_num, rfl⟩, rfl⟩

end irr

namespace irr

/-! ## C13: SSkinMeshBuffer::append -/

/-- C13, the code at the failing input.  An empty standard buffer to which three vertices
and three indices are appended still has no vertex and no index, and a buffer with three
vertices and three indices appended to it leaves it empty as well: both append methods have
an empty body. -/
theorem SSkinMeshBuffer_append_does_nothing :
    ((SSkinMeshBuffer.construct E_VERTEX_TYPE.EVT_STANDARD).append
      [sampleVertex 0 0 0, sampleVertex 1 0 0, sampleVertex 0 2 0] 3 [0, 1, 2] 3
      false).getVertexCount = 0 ∧
    ((SSkinMeshBuffer.construct E_VERTEX_TYPE.EVT_STANDARD).append
      [sampleVertex 0 0 0, sampleVertex 1 0 0, sampleVertex 0 2 0] 3 [0, 1, 2] 3
      false).getIndexCount = 0 ∧
    (sampleSkinBuffer SMaterial.default unitBox).getVertexCount = 3 ∧
    (sampleSkinBuffer SMaterial.default unitBox).getIndexCount = 3 ∧
    ((SSkinMeshBuffer.construct E_VERTEX_TYPE.EVT_STANDARD).appendBuffer
      (some (sampleSkinBuffer SMaterial.default unitBox)) false).getVertexCount = 0 ∧
    ((SSkinMeshBuffer.construct E_VERTEX_TYPE.EVT_STANDARD).appendBuffer
      (some (sampleSkinBuffer SMaterial.default unitBox)) false).getIndexCount = 0 := by
  decide

/-! ## C14: SSkinMeshBuffer::createClone -/

/-- C14. For every cloneFlags the clone has the vertex type, material, transformation,
primitive type and hardware mapping hints of the original.  When ECF_VERTICES is set the
three vertex arrays, the bounding box and the needs-recalculation flag are those of the
original; when it is not set the clone has no vertices, the box aabbox3df(1,-1) and the flag
as a new buffer has it.  When ECF_INDICES is set the indices are those of the original;
when it is not set getIndexCount() is 0.  The original is an argument that is only read. -/
theorem SSkinMeshBuffer_createClone_copies (flags : ECloneFlags) (b : SSkinMeshBuffer)
    (cloneFlags : Int) :
    ((b.createClone flags cloneFlags).getVertexType = b.getVertexType ∧
      (b.createClone flags cloneFlags).getMaterial = b.getMaterial ∧
      (b.createClone flags cloneFlags).Transformation = b.Transformation ∧
      (b.createClone flags cloneFlags).PrimitiveType = b.PrimitiveType ∧
      (b.createClone flags cloneFlags).MappingHint_Vertex = b.MappingHint_Vertex ∧
      (b.createClone flags cloneFlags).MappingHint_Index = b.MappingHint_Index) ∧
    (SSkinMeshBuffer.flagSet cloneFlags flags.ECF_VERTICES = true →
      (b.createClone flags cloneFlags).Vertices_Tangents = b.Vertices_Tangents ∧
      (b.createClone flags cloneFlags).Vertices_2TCoords = b.Vertices_2TCoords ∧
      (b.createClone flags cloneFlags).Vertices_Standard = b.Vertices_Standard ∧
      (b.createClone flags cloneFlags).getBoundingBox = b.getBoundingBox ∧
      (b.createClone flags cloneFlags).BoundingBoxNeedsRecalculated =
        b.BoundingBoxNeedsRecalculated) ∧
    (SSkinMeshBuffer.flagSet cloneFlags flags.ECF_VERTICES = false →
      (b.createClone flags cloneFlags).Vertices_Tangents = [] ∧
      (b.createClone flags cloneFlags).Vertices_2TCoords = [] ∧
      (b.createClone flags cloneFlags).Vertices_Standard = [] ∧
      (b.createClone flags cloneFlags).getVertexCount = 0 ∧
      (b.createClone flags cloneFlags).getBoundingBox = aabbox3df.sentinel ∧
      (b.createClone flags cloneFlags).BoundingBoxNeedsRecalculated = true) ∧
    (SSkinMeshBuffer.flagSet cloneFlags flags.ECF_INDICES = true →
      (b.createClone flags cloneFlags).Indices = b.Indices) ∧
    (SSkinMeshBuffer.flagSet cloneFlags flags.ECF_INDICES = false →
      (b.createClone flags cloneFlags).getIndexCount = 0) := by
  refine ⟨?_, ?_, ?_, ?_, ?_⟩
  · cases hv : SSkinMeshBuffer.flagSet cloneFlags flags.ECF_VERTICES <;>
      cases hi : SSkinMeshBuffer.flagSet cloneFlags flags.ECF_INDICES <;>
      simp [SSkinMeshBuffer.createClone, SSkinMeshBuffer.construct, hv, hi,
        SSkinMeshBuffer.getVertexType, SSkinMeshBuffer.getMaterial]
  · intro hv
    cases hi : SSkinMeshBuffer.flagSet cloneFlags flags.ECF_INDICES <;>
      simp [SSkinMeshBuffer.createClone, SSkinMeshBuffer.construct, hv, hi,
        SSkinMeshBuffer.getBoundingBox]
  · intro hv
    cases hi : SSkinMeshBuffer.flagSet cloneFlags flags.ECF_INDICES <;>
      cases hvt : b.VertexType <;>
      simp [SSkinMeshBuffer.createClone, SSkinMeshBuffer.construct, hv, hi, hvt,
        SSkinMeshBuffer.getBoundingBox, SSkinMeshBuffer.getVertexCount]
  · intro hi
    cases hv : SSkinMeshBuffer.flagSet cloneFlags flags.ECF_VERTICES <;>
      simp [SSkinMeshBuffer.createClone, SSkinMeshBuffer.construct, hv, hi]
  · intro hi
    cases hv : SSkinMeshBuffer.flagSet cloneFlags flags.ECF_VERTICES <;>
      simp [SSkinMeshBuffer.createClone, SSkinMeshBuffer.construct, hv, hi,
        SSkinMeshBuffer.getIndexCount]

/-- Witness for C14: with ECF_VERTICES = 1 and ECF_INDICES = 2, cloning the sample buffer
with cloneFlags = 1 copies the three vertices and leaves the clone without indices. -/
theorem SSkinMeshBuffer_createClone_copies_witness :
    SSkinMeshBuffer.flagSet 1 sampleCloneFlags.ECF_VERTICES = true ∧
    SSkinMeshBuffer.flagSet 1 sampleCloneFlags.ECF_INDICES = false ∧
    ((sampleSkinBuffer SMaterial.default unitBox).createClone sampleCloneFlags
      1).Vertices_Standard = [sampleVertex 0 0 0, sampleVertex 1 0 0, sampleVertex 0 2 0] ∧
    ((sampleSkinBuffer SMaterial.default unitBox).createClone sampleCloneFlags
      1).getIndexCount = 0 :=
  ⟨by decide, by decide,
   ((SSkinMeshBuffer_createClone_copies sampleCloneFlags
      (sampleSkinBuffer SMaterial.default unitBox) 1).2.1 (by decide)).2.2.1,
   (SSkinMeshBuffer_createClone_copies sampleCloneFlags
      (sampleSkinBuffer SMaterial.default unitBox) 1).2.2.2.2 (by decide)⟩

end irr

namespace irr
open IMeshManipulator

/-! ## C18: IMeshManipulator::apply -/

theorem modifyAt_length {α : Type} (f : α → α) (i : Nat) (l : List α) :
    (modifyAt f i l).length = l.length := by
  induction l generalizing i with
  | nil => cases i <;> rfl
  | cons a as ih => cases i <;> simp [modifyAt, ih]

theorem modifyAt_take_drop {α : Type} (f : α → α) (l : List α) (k : Nat) (h : k < l.length) :
    modifyAt f k ((l.take k).map f ++ l.drop k) = (l.take (k + 1)).map f ++ l.drop (k + 1) := by
  induction l generalizing k with
  | nil => simp at h
  | cons a as ih =>
    cases k with
    | zero => simp [modifyAt]
    | succ j =>
      have hj : j < as.length := by simpa using h
      simp only [List.take_succ_cons, List.map_cons, List.drop_succ_cons, List.cons_append]
      rw [modifyAt, ih j hj]

/-- The functor applied at the positions 0, 1, ..., k-1 in turn maps the first k elements. -/
theorem foldl_modifyAt_range {α : Type} (f : α → α) (l : List α) (k : Nat)
    (h : k ≤ l.length) :
    (List.range k).foldl (fun acc i => modifyAt f i acc) l = (l.take k).map f ++ l.drop k := by
  induction k with
  | zero => simp
  | succ k ih =>
    rw [List.range_succ, List.foldl_append, ih (Nat.le_of_succ_le h)]
    simp only [List.foldl_cons, List.foldl_nil]
    exact modifyAt_take_drop f l k h

theorem foldl_modifyAt_range_length {α : Type} (f : α → α) (l : List α) :
    (List.range l.length).foldl (fun acc i => modifyAt f i acc) l = l.map f := by
  rw [foldl_modifyAt_range f l l.length (Nat.le_refl _)]
  simp

theorem foldl_applyStep_calls (func : VertexFunctor) (upd : Bool) (l : List Nat)
    (st : ApplyState) : (l.foldl (applyStep func upd) st).calls = st.calls ++ l := by
  induction l generalizing st with
  | nil => simp
  | cons i rest ih => simp [ih, applyStep]

theorem callFunctor_vertexType (func : VertexFunctor) (b : SSkinMeshBuffer) (i : Nat) :
    (callFunctor func b i).VertexType = b.VertexType := by
  unfold callFunctor SSkinMeshBuffer.getVertexType
  cases b.VertexType <;> rfl

/-- The vertex arrays after the loop: the array of the buffer's vertex type has had the
functor applied at each visited position, the other two are untouched. -/
theorem foldl_applyStep_vertices (func : VertexFunctor) (upd : Bool) (l : List Nat)
    (st : ApplyState) :
    (l.foldl (applyStep func upd) st).buffer.VertexType = st.buffer.VertexType ∧
    (l.foldl (applyStep func upd) st).buffer.Vertices_Standard =
      (if st.buffer.VertexType = E_VERTEX_TYPE.EVT_STANDARD then
        l.foldl (fun acc i => modifyAt func.onStandard i acc) st.buffer.Vertices_Standard
       else st.buffer.Vertices_Standard) ∧
    (l.foldl (applyStep func upd) st).buffer.Vertices_2TCoords =
      (if st.buffer.VertexType = E_VERTEX_TYPE.EVT_2TCOORDS then
        l.foldl (fun acc i => modifyAt func.on2TCoords i acc) st.buffer.Vertices_2TCoords
       else st.buffer.Vertices_2TCoords) ∧
    (l.foldl (applyStep func upd) st).buffer.Vertices_Tangents =
      (if st.buffer.VertexType = E_VERTEX_TYPE.EVT_TANGENTS then
        l.foldl (fun acc i => modifyAt func.onTangents i acc) st.buffer.Vertices_Tangents
       else st.buffer.Vertices_Tangents) := by
  induction l generalizing st with
  | nil => simp
  | cons i rest ih =>
    simp only [List.foldl_cons]
    obtain ⟨h1, h2, h3, h4⟩ := ih (applyStep func upd st i)
    have hvt : (applyStep func upd st i).buffer.VertexType = st.buffer.VertexType :=
      callFunctor_vertexType func st.buffer i
    rw [h1, h2, h3, h4, hvt]
    refine ⟨rfl, ?_, ?_, ?_⟩ <;>
      cases hst : st.buffer.VertexType <;>
      simp [applyStep, callFunctor, SSkinMeshBuffer.getVertexType, hst]

theorem applyMeshLoop_result (func : VertexFunctor) (upd : Bool) (bufs : List SSkinMeshBuffer)
    (i : Nat) (st : MeshApplyState) (h : st.result = true) :
    (applyMeshLoop func upd i bufs st).result = true := by
  induction bufs generalizing i st with
  | nil => exact h
  | cons mb rest ih =>
    simp only [applyMeshLoop]
    apply ih
    split_ifs <;> simp [h, IMeshManipulator.apply, apply_]

/-- C18. apply returns true for every input.  For a null buffer it returns true without a
call of the functor.  For a buffer it calls the functor on the vertex indices
0, 1, ..., getVertexCount()-1, each exactly once and in increasing order, so that the array
of the buffer's vertex type holds the image of each vertex, and returns true.  For a null
mesh it returns true without a call of the functor, and for a mesh it returns true. -/
theorem IMeshManipulator_apply_returns_true (func : VertexFunctor) (boundingBoxUpdate : Bool) :
    (IMeshManipulator.apply func none boundingBoxUpdate).result = true ∧
    (IMeshManipulator.apply func none boundingBoxUpdate).calls = [] ∧
    (∀ b : SSkinMeshBuffer,
      (IMeshManipulator.apply func (some b) boundingBoxUpdate).result = true ∧
      (IMeshManipulator.apply func (some b) boundingBoxUpdate).calls =
        List.range b.getVertexCount ∧
      ∃ b2, (IMeshManipulator.apply func (some b) boundingBoxUpdate).buffer = some b2 ∧
        b2.getVertexCount = b.getVertexCount ∧
        b2.Vertices_Standard =
          (if b.VertexType = E_VERTEX_TYPE.EVT_STANDARD then
            b.Vertices_Standard.map func.onStandard else b.Vertices_Standard) ∧
        b2.Vertices_2TCoords =
          (if b.VertexType = E_VERTEX_TYPE.EVT_2TCOORDS then
            b.Vertices_2TCoords.map func.on2TCoords else b.Vertices_2TCoords) ∧
        b2.Vertices_Tangents =
          (if b.VertexType = E_VERTEX_TYPE.EVT_TANGENTS then
            b.Vertices_Tangents.map func.onTangents else b.Vertices_Tangents)) ∧
    (applyMesh func none boundingBoxUpdate).result = true ∧
    (applyMesh func none boundingBoxUpdate).calls = [] ∧
    (∀ m : SMesh, (applyMesh func (some m) boundingBoxUpdate).result = true) := by
  refine ⟨rfl, rfl, fun b => ⟨rfl, ?_, ?_⟩, rfl, rfl, fun m => ?_⟩
  · simp [IMeshManipulator.apply, apply_, foldl_applyStep_calls]
  · obtain ⟨h1, h2, h3, h4⟩ := foldl_applyStep_vertices func boundingBoxUpdate
      (List.range b.getVertexCount)
      { buffer := b, bufferbox := aabbox3df.sentinel, calls := [] }
    simp only at h1 h2 h3 h4
    have hb2 : ∃ b2, (IMeshManipulator.apply func (some b) boundingBoxUpdate).buffer = some b2 ∧
        b2.VertexType = b.VertexType ∧
        b2.Vertices_Standard =
          (if b.VertexType = E_VERTEX_TYPE.EVT_STANDARD then
            (List.range b.getVertexCount).foldl (fun acc i => modifyAt func.onStandard i acc)
              b.Vertices_Standard
           else b.Vertices_Standard) ∧
        b2.Vertices_2TCoords =
          (if b.VertexType = E_VERTEX_TYPE.EVT_2TCOORDS then
            (List.range b.getVertexCount).foldl (fun acc i => modifyAt func.on2TCoords i acc)
              b.Vertices_2TCoords
           else b.Vertices_2TCoords) ∧
        b2.Vertices_Tangents =
          (if b.VertexType = E_VERTEX_TYPE.EVT_TANGENTS then
            (List.range b.getVertexCount).foldl (fun acc i => modifyAt func.onTangents i acc)
              b.Vertices_Tangents
           else b.Vertices_Tangents) := by
      cases boundingBoxUpdate
      · exact ⟨_, rfl, h1, h2, h3, h4⟩
      · exact ⟨_, rfl, h1, h2, h3, h4⟩
    obtain ⟨b2, e0, e1, e2, e3, e4⟩ := hb2
    refine ⟨b2, e0, ?_, ?_, ?_, ?_⟩
    · cases hvt : b.VertexType <;>
        simp [SSkinMeshBuffer.getVertexCount, e1, e2, e3, e4, hvt, foldl_modifyAt_range_length]
    · rw [e2]
      cases hvt : b.VertexType <;>
        simp [SSkinMeshBuffer.getVertexCount, hvt, foldl_modifyAt_range_length]
    · rw [e3]
      cases hvt : b.VertexType <;>
        simp [SSkinMeshBuffer.getVertexCount, hvt, foldl_modifyAt_range_length]
    · rw [e4]
      cases hvt : b.VertexType <;>
        simp [SSkinMeshBuffer.getVertexCount, hvt, foldl_modifyAt_range_length]
  · simp only [applyMesh]
    exact applyMeshLoop_result func boundingBoxUpdate m.MeshBuffers 0 _ rfl

end irr

namespace irr
open COpenGLShaderMaterialRenderer

/-! ## C19: COpenGLShaderMaterialRenderer::isTransparent -/

/-- C19. For a renderer made by either constructor, isTransparent() is true if and only if
baseMaterial is one of EMT_TRANSPARENT_VERTEX_ALPHA, EMT_TRANSPARENT_ALPHA_CHANNEL,
EMT_NORMAL_MAP_TRANSPARENT_VERTEX_ALPHA, EMT_PARALLAX_MAP_TRANSPARENT_VERTEX_ALPHA,
EMT_TRANSPARENT_ADD_COLOR, EMT_NORMAL_MAP_TRANSPARENT_ADD_COLOR,
EMT_PARALLAX_MAP_TRANSPARENT_ADD_COLOR and EMT_ONETEXTURE_BLEND; it is false for
EMT_TRANSPARENT_ALPHA_CHANNEL_REF and every other value.  Both constructors set the four
flags alike, and at most one of Alpha, FixedBlending, Blending, AlphaTest is set. -/
theorem isTransparent_iff_baseMaterial (driver callback : Option Nat) (gl : ShaderSetup)
    (baseMaterial : E_MATERIAL_TYPE) (userData : Int) :
    ((constructDerived driver callback baseMaterial userData).isTransparent = true ↔
      baseMaterial ∈ [E_MATERIAL_TYPE.EMT_TRANSPARENT_VERTEX_ALPHA,
        E_MATERIAL_TYPE.EMT_TRANSPARENT_ALPHA_CHANNEL,
        E_MATERIAL_TYPE.EMT_NORMAL_MAP_TRANSPARENT_VERTEX_ALPHA,
        E_MATERIAL_TYPE.EMT_PARALLAX_MAP_TRANSPARENT_VERTEX_ALPHA,
        E_MATERIAL_TYPE.EMT_TRANSPARENT_ADD_COLOR,
        E_MATERIAL_TYPE.EMT_NORMAL_MAP_TRANSPARENT_ADD_COLOR,
        E_MATERIAL_TYPE.EMT_PARALLAX_MAP_TRANSPARENT_ADD_COLOR,
        E_MATERIAL_TYPE.EMT_ONETEXTURE_BLEND]) ∧
    (construct driver gl callback baseMaterial userData).1.isTransparent =
      (constructDerived driver callback baseMaterial userData).isTransparent ∧
    ((construct driver gl callback baseMaterial userData).1.Alpha =
        (constructDerived driver callback baseMaterial userData).Alpha ∧
      (construct driver gl callback baseMaterial userData).1.FixedBlending =
        (constructDerived driver callback baseMaterial userData).FixedBlending ∧
      (construct driver gl callback baseMaterial userData).1.Blending =
        (constructDerived driver callback baseMaterial userData).Blending ∧
      (construct driver gl callback baseMaterial userData).1.AlphaTest =
        (constructDerived driver callback baseMaterial userData).AlphaTest) ∧
    ([(constructDerived driver callback baseMaterial userData).Alpha,
       (constructDerived driver callback baseMaterial userData).FixedBlending,
       (constructDerived driver callback baseMaterial userData).Blending,
       (constructDerived driver callback baseMaterial userData).AlphaTest].count true ≤ 1) ∧
    (constructDerived driver callback E_MATERIAL_TYPE.EMT_TRANSPARENT_ALPHA_CHANNEL_REF
      userData).isTransparent = false := by
  refine ⟨?_, rfl, ⟨rfl, rfl, rfl, rfl⟩, ?_, rfl⟩
  · cases baseMaterial <;>
      simp [constructDerived, switchBaseMaterial, isTransparent]
  · cases baseMaterial <;>
      simp [constructDerived, switchBaseMaterial]

end irr

namespace irr
namespace CGUITreeViewNode

/-! ## C15: CGUITreeViewNode::insertChildAfter -/

theorem setChildren_Children (n : CGUITreeViewNode) (l : List CGUITreeViewNode) :
    (n.setChildren l).Children = l := by
  cases n; rfl

theorem setChildren_Address (n : CGUITreeViewNode) (l : List CGUITreeViewNode) :
    (n.setChildren l).Address = n.Address := by
  cases n; rfl

theorem setChildren_Owner (n : CGUITreeViewNode) (l : List CGUITreeViewNode) :
    (n.setChildren l).Owner = n.Owner := by
  cases n; rfl

theorem setChildren_self (n : CGUITreeViewNode) : n.setChildren n.Children = n := by
  cases n; rfl

theorem insertChildAfterLoop_none (other : Option Nat) (newChild : CGUITreeViewNode)
    (cs : List CGUITreeViewNode) :
    insertChildAfterLoop other newChild cs = none ↔ ∀ c ∈ cs, some c.Address ≠ other := by
  induction cs with
  | nil => simp [insertChildAfterLoop]
  | cons c rest ih =>
    by_cases h : other = some c.Address
    · simp [insertChildAfterLoop, h]
    · have h2 : some c.Address ≠ other := fun e => h e.symm
      simp [insertChildAfterLoop, h, h2, ih]

theorem insertChildAfterLoop_some (other : Option Nat) (newChild : CGUITreeViewNode)
    (cs l : List CGUITreeViewNode) (h : insertChildAfterLoop other newChild cs = some l) :
    ∃ pre c post, cs = pre ++ c :: post ∧ some c.Address = other ∧
      (∀ x ∈ pre, some x.Address ≠ other) ∧ l = pre ++ c :: newChild :: post := by
  induction cs generalizing l with
  | nil => simp [insertChildAfterLoop] at h
  | cons c rest ih =>
    by_cases hc : other = some c.Address
    · simp only [insertChildAfterLoop, hc, if_true, Option.some.injEq] at h
      exact ⟨[], c, rest, rfl, hc.symm, fun x hx => absurd hx (List.not_mem_nil x), h.symm⟩
    · simp only [insertChildAfterLoop, hc, if_false, Option.map_eq_some'] at h
      obtain ⟨l2, hl2, hl⟩ := h
      obtain ⟨pre, c2, post, h1, h2, h3, h4⟩ := ih l2 hl2
      refine ⟨c :: pre, c2, post, by rw [h1]; rfl, h2, ?_, by rw [← hl, h4]; rfl⟩
      intro x hx
      rcases List.mem_cons.mp hx with rfl | hx2
      · exact fun e => hc e.symm
      · exact h3 x hx2

/-- C15. insertChildAfter(other, ...) returns null if and only if `other` is not the address
of a direct child, and then the node (its children list included) is as before.  Otherwise
it returns the address of a new node whose Parent is this node and whose Owner is this
node's Owner, linked in right behind (the first occurrence of) `other`; the children before
and behind keep their order, and the list is longer by one. -/
theorem insertChildAfter_inserts (this : CGUITreeViewNode) (address : Nat)
    (other : Option Nat) (text icon : String) (imageIndex selectedImageIndex : Int)
    (data data2 : Option Nat) :
    ((this.insertChildAfter address other text icon imageIndex selectedImageIndex data
        data2).2 = none ↔ ∀ c ∈ this.Children, some c.Address ≠ other) ∧
    ((this.insertChildAfter address other text icon imageIndex selectedImageIndex data
        data2).2 = none →
      (this.insertChildAfter address other text icon imageIndex selectedImageIndex data
        data2).1 = this) ∧
    ((this.insertChildAfter address other text icon imageIndex selectedImageIndex data
        data2).2 ≠ none →
      ∃ pre c post newChild,
        this.Children = pre ++ c :: post ∧ some c.Address = other ∧
        (∀ x ∈ pre, some x.Address ≠ other) ∧
        (this.insertChildAfter address other text icon imageIndex selectedImageIndex data
          data2).1.Children = pre ++ c :: newChild :: post ∧
        (this.insertChildAfter address other text icon imageIndex selectedImageIndex data
          data2).2 = some newChild.Address ∧
        newChild.Address = address ∧ newChild.Parent = some this.Address ∧
        newChild.Owner = this.Owner ∧ newChild.Children = [] ∧
        (this.insertChildAfter address other text icon imageIndex selectedImageIndex data
          data2).1.Children.length = this.Children.length + 1 ∧
        (this.insertChildAfter address other text icon imageIndex selectedImageIndex data
          data2).1.Address = this.Address) := by
  cases hloop : insertChildAfterLoop other
      (construct address this.Owner (some this.Address) text icon imageIndex
        selectedImageIndex data data2) this.Children with
  | none =>
    have hr : this.insertChildAfter address other text icon imageIndex selectedImageIndex data
        data2 = (this, none) := by
      simp [insertChildAfter, hloop]
    rw [hr]
    refine ⟨?_, fun _ => rfl, fun h => absurd rfl h⟩
    simp only [true_iff]
    exact (insertChildAfterLoop_none _ _ _).mp hloop
  | some l =>
    have hr : this.insertChildAfter address other text icon imageIndex selectedImageIndex data
        data2 = (this.setChildren l, some address) := by
      simp [insertChildAfter, hloop]
    rw [hr]
    obtain ⟨pre, c, post, h1, h2, h3, h4⟩ := insertChildAfterLoop_some _ _ _ _ hloop
    refine ⟨?_, fun h => absurd h (by simp), fun _ => ?_⟩
    · constructor
      · intro h; exact absurd h (by simp)
      · intro hall
        have := (insertChildAfterLoop_none other
          (construct address this.Owner (some this.Address) text icon imageIndex
            selectedImageIndex data data2) this.Children).mpr hall
        rw [hloop] at this
        exact absurd this (by simp)
    · refine ⟨pre, c, post,
        construct address this.Owner (some this.Address) text icon imageIndex
          selectedImageIndex data data2,
        h1, h2, h3, ?_, rfl, rfl, rfl, rfl, rfl, ?_, ?_⟩
      · simp only [setChildren_Children]; exact h4
      · simp only [setChildren_Children, h4, h1, List.length_append, List.length_cons]
        omega
      · simp only [setChildren_Address]

/-- Witness for C15: behind the child at address 3 of the sample node (children 2, 3, 4) a
new node is put at address 9; the children are then 2, 3, 9, 4 and the returned pointer is
9. -/
theorem insertChildAfter_inserts_witness :
    (sampleParent.insertChildAfter 9 (some 3) "" "" (-1) (-1) none none).2 ≠ none ∧
    (sampleParent.insertChildAfter 9 (some 3) "" "" (-1) (-1) none none).2 = some 9 ∧
    (sampleParent.insertChildAfter 9 (some 3) "" "" (-1) (-1) none none).1.childPointers =
      [2, 3, 9, 4] ∧
    ((sampleParent.insertChildAfter 9 (some 7) "" "" (-1) (-1) none none).2 = none ↔
      ∀ c ∈ sampleParent.Children, some c.Address ≠ some 7) :=
  ⟨by decide, by decide, by decide,
   (insertChildAfter_inserts sampleParent 9 (some 7) "" "" (-1) (-1) none none).1⟩

end CGUITreeViewNode
end irr

namespace irr
namespace CGUITreeViewNode

/-! ## C16: CGUITreeViewNode::deleteChild -/

theorem setSelected_false_selected (views : TreeViews) (n : CGUITreeViewNode) (o : Nat) :
    ((setSelected views n false o).Selected = (views o).Selected ∨
      (setSelected views n false o).Selected = none) ∧
    ((setSelected views n false o).HoverSelected = (views o).HoverSelected ∨
      (setSelected views n false o).HoverSelected = none) := by
  unfold setSelected
  cases hn : n.Owner with
  | none => simp
  | some o2 =>
    by_cases ho : o = o2
    · subst ho
      simp only [Bool.false_eq_true, if_false, Function.update_same]
      constructor
      · by_cases h1 : (views o).Selected = some n.Address
        · right; split_ifs <;> simp_all
        · left; split_ifs <;> simp_all
      · by_cases h2 : (views o).HoverSelected = some n.Address
        · right; split_ifs <;> simp_all
        · left; split_ifs <;> simp_all
    · simp [Function.update_noteq ho]

/-- After setSelected(false) on a node, its owner's Selected and HoverSelected do not point
to it. -/
theorem setSelected_false_owner (views : TreeViews) (n : CGUITreeViewNode) (o : Nat)
    (ho : n.Owner = some o) :
    (setSelected views n false o).Selected ≠ some n.Address ∧
    (setSelected views n false o).HoverSelected ≠ some n.Address := by
  unfold setSelected
  simp only [ho, Bool.false_eq_true, if_false, Function.update_same]
  constructor
  · split_ifs <;> simp_all
  · split_ifs <;> simp_all

theorem OnlyCleared.refl (v : TreeViews) : OnlyCleared v v :=
  fun _ => ⟨Or.inl rfl, Or.inl rfl⟩

theorem OnlyCleared.trans {v1 v2 v3 : TreeViews} (h12 : OnlyCleared v1 v2)
    (h23 : OnlyCleared v2 v3) : OnlyCleared v1 v3 := by
  intro o
  obtain ⟨a1, b1⟩ := h12 o
  obtain ⟨a2, b2⟩ := h23 o
  constructor
  · rcases a2 with h | h
    · rw [h]; exact a1
    · exact Or.inr h
  · rcases b2 with h | h
    · rw [h]; exact b1
    · exact Or.inr h

theorem setSelected_false_onlyCleared (views : TreeViews) (n : CGUITreeViewNode) :
    OnlyCleared views (setSelected views n false) :=
  fun o => setSelected_false_selected views n o

mutual
theorem drop_onlyCleared : ∀ (n : CGUITreeViewNode) (views : TreeViews),
    OnlyCleared views (drop views n)
  | mk a o p t ic ii si d d2 e cs r, views => by
    unfold drop
    split_ifs
    · exact OnlyCleared.trans (setSelected_false_onlyCleared views _)
        (clearChildrenLoop_onlyCleared cs _)
    · exact OnlyCleared.refl views
theorem clearChildrenLoop_onlyCleared : ∀ (cs : List CGUITreeViewNode) (views : TreeViews),
    OnlyCleared views (clearChildrenLoop views cs)
  | [], views => by
    unfold clearChildrenLoop
    exact OnlyCleared.refl views
  | c :: rest, views => by
    unfold clearChildrenLoop
    exact OnlyCleared.trans
      (OnlyCleared.trans (setSelected_false_onlyCleared views c) (drop_onlyCleared c _))
      (clearChildrenLoop_onlyCleared rest _)
end

theorem deleteChildLoop_none (views : TreeViews) (child : Option Nat)
    (cs : List CGUITreeViewNode) :
    deleteChildLoop views child cs = none ↔ ∀ c ∈ cs, some c.Address ≠ child := by
  induction cs with
  | nil => simp [deleteChildLoop]
  | cons c rest ih =>
    by_cases h : child = some c.Address
    · simp [deleteChildLoop, h]
    · have h2 : some c.Address ≠ child := fun e => h e.symm
      simp [deleteChildLoop, h, h2, ih]

theorem deleteChildLoop_some (views : TreeViews) (child : Option Nat)
    (cs : List CGUITreeViewNode) (p : TreeViews × List CGUITreeViewNode)
    (h : deleteChildLoop views child cs = some p) :
    ∃ pre c post, cs = pre ++ c :: post ∧ some c.Address = child ∧
      (∀ x ∈ pre, some x.Address ≠ child) ∧ p.2 = pre ++ post ∧
      p.1 = drop (setSelected views c false) c := by
  induction cs generalizing p with
  | nil => simp [deleteChildLoop] at h
  | cons c rest ih =>
    by_cases hc : child = some c.Address
    · simp only [deleteChildLoop, hc, if_true, Option.some.injEq] at h
      refine ⟨[], c, rest, rfl, hc.symm, fun x hx => absurd hx (List.not_mem_nil x), ?_, ?_⟩
      · rw [← h]; rfl
      · rw [← h]
    · simp only [deleteChildLoop, hc, if_false, Option.map_eq_some'] at h
      obtain ⟨p2, hp2, hp⟩ := h
      obtain ⟨pre, c2, post, h1, h2, h3, h4, h5⟩ := ih p2 hp2
      refine ⟨c :: pre, c2, post, by rw [h1]; rfl, h2, ?_, by rw [← hp]; simp [h4],
        by rw [← hp]; exact h5⟩
      intro x hx
      rcases List.mem_cons.mp hx with rfl | hx2
      · exact fun e => hc e.symm
      · exact h3 x hx2

/-- C16. deleteChild(child) returns true if and only if `child` is the address of a direct
child.  When it returns true, exactly (the first occurrence of) that child is taken out of
the children list, the other children keep their order, and the Selected and HoverSelected
pointers of the child's owner (which is this node's owner for every child the node methods
created) do not point to the child.  When it returns false the node, its children list and
all tree views are as before. -/
theorem deleteChild_removes (views : TreeViews) (this : CGUITreeViewNode)
    (child : Option Nat) :
    ((deleteChild views this child).2.2 = true ↔
      ∃ c ∈ this.Children, some c.Address = child) ∧
    ((deleteChild views this child).2.2 = true →
      ∃ pre c post, this.Children = pre ++ c :: post ∧ some c.Address = child ∧
        (∀ x ∈ pre, some x.Address ≠ child) ∧
        (deleteChild views this child).2.1.Children = pre ++ post ∧
        ∀ o, c.Owner = some o →
          ((deleteChild views this child).1 o).Selected ≠ child ∧
          ((deleteChild views this child).1 o).HoverSelected ≠ child) ∧
    ((deleteChild views this child).2.2 = false →
      (deleteChild views this child).2.1 = this ∧ (deleteChild views this child).1 = views) := by
  cases hloop : deleteChildLoop views child this.Children with
  | none =>
    have hr : deleteChild views this child = (views, this, false) := by
      simp [deleteChild, hloop]
    rw [hr]
    refine ⟨?_, fun h => absurd h (by simp), fun _ => ⟨rfl, rfl⟩⟩
    constructor
    · intro h; exact absurd h (by simp)
    · rintro ⟨c, hc, hcc⟩
      exact absurd hcc ((deleteChildLoop_none views child this.Children).mp hloop c hc)
  | some p =>
    have hr : deleteChild views this child = (p.1, this.setChildren p.2, true) := by
      simp [deleteChild, hloop]
    rw [hr]
    obtain ⟨pre, c, post, h1, h2, h3, h4, h5⟩ := deleteChildLoop_some views child _ p hloop
    refine ⟨⟨fun _ => ⟨c, by rw [h1]; simp, h2⟩, fun _ => rfl⟩, fun _ => ?_,
      fun h => absurd h (by simp)⟩
    refine ⟨pre, c, post, h1, h2, h3, by simp only [setChildren_Children]; exact h4, ?_⟩
    intro o ho
    simp only [h5]
    obtain ⟨hs, hh⟩ := setSelected_false_owner views c o ho
    obtain ⟨ds, dh⟩ := drop_onlyCleared c (setSelected views c false) o
    rw [← h2]
    constructor
    · rcases ds with e | e
      · rw [e]; exact hs
      · rw [e]; simp
    · rcases dh with e | e
      · rw [e]; exact hh
      · rw [e]; simp

/-- Witness for C16: the sample node has the children 2, 3, 4 and the child at address 3 is
selected and hover-selected in its tree view (address 100); deleteChild(3) returns true,
leaves the children 2, 4 and clears both pointers. -/
theorem deleteChild_removes_witness :
    (deleteChild sampleViews sampleParent (some 3)).2.2 = true ∧
    (deleteChild sampleViews sampleParent (some 3)).2.1.childPointers = [2, 4] ∧
    ((deleteChild sampleViews sampleParent (some 3)).1 100).Selected = none ∧
    ((deleteChild sampleViews sampleParent (some 3)).1 100).HoverSelected = none ∧
    ∃ pre c post, sampleParent.Children = pre ++ c :: post ∧ some c.Address = some 3 ∧
      (∀ x ∈ pre, some x.Address ≠ some 3) ∧
      (deleteChild sampleViews sampleParent (some 3)).2.1.Children = pre ++ post ∧
      ∀ o, c.Owner = some o →
        ((deleteChild sampleViews sampleParent (some 3)).1 o).Selected ≠ some 3 ∧
        ((deleteChild sampleViews sampleParent (some 3)).1 o).HoverSelected ≠ some 3 :=
  ⟨by decide, by decide, by decide, by decide,
   (deleteChild_removes sampleViews sampleParent (some 3)).2.1 (by decide)⟩

end CGUITreeViewNode
end irr

namespace irr
namespace CGUITreeViewNode

/-! ## C17: CGUITreeViewNode::moveChildUp and moveChildDown -/

/-- The loop of moveChildUp, entered behind a child `prev` that is not the one asked for. -/
theorem moveChildUpLoop_spec (child : Option Nat) (rest : List CGUITreeViewNode)
    (prev : CGUITreeViewNode) (hprev : some prev.Address ≠ child) :
    ((moveChildUpLoop child prev rest).2 = false ∧
      (moveChildUpLoop child prev rest).1 = prev :: rest ∧
      ∀ c ∈ rest, some c.Address ≠ child) ∨
    ((moveChildUpLoop child prev rest).2 = true ∧
      ∃ pre a c post, prev :: rest = pre ++ a :: c :: post ∧ some c.Address = child ∧
        (∀ x ∈ pre ++ [a], some x.Address ≠ child) ∧
        (moveChildUpLoop child prev rest).1 = pre ++ c :: a :: post) := by
  induction rest generalizing prev with
  | nil =>
    left
    exact ⟨rfl, rfl, fun c hc => absurd hc (List.not_mem_nil c)⟩
  | cons c rest ih =>
    by_cases hc : child = some c.Address
    · right
      refine ⟨by simp [moveChildUpLoop, hc], [], prev, c, rest, rfl, hc.symm, ?_,
        by simp [moveChildUpLoop, hc]⟩
      intro x hx
      simp only [List.nil_append, List.mem_singleton] at hx
      rw [hx]; exact hprev
    · have hc2 : some c.Address ≠ child := fun e => hc e.symm
      have hstep : moveChildUpLoop child prev (c :: rest) =
          (prev :: (moveChildUpLoop child c rest).1, (moveChildUpLoop child c rest).2) := by
        simp [moveChildUpLoop, hc]
      rw [hstep]
      rcases ih c hc2 with ⟨h1, h2, h3⟩ | ⟨h1, pre, a, c2, post, h2, h3, h4, h5⟩
      · left
        refine ⟨h1, by simp only [h2], ?_⟩
        intro x hx
        rcases List.mem_cons.mp hx with rfl | hx2
        · exact hc2
        · exact h3 x hx2
      · right
        refine ⟨h1, prev :: pre, a, c2, post, by rw [h2]; rfl, h3, ?_, by simp only [h5]; rfl⟩
        intro x hx
        rcases List.mem_cons.mp (by simpa using hx : x ∈ prev :: (pre ++ [a])) with rfl | hx2
        · exact hprev
        · exact h4 x hx2

/-- The loop of moveChildDown on a list in which the child asked for comes first at the
position behind `pre` and is followed by a further child. -/
theorem moveChildDownLoop_swap (child : Option Nat) (pre : List CGUITreeViewNode)
    (c a : CGUITreeViewNode) (post : List CGUITreeViewNode)
    (hpre : ∀ x ∈ pre, some x.Address ≠ child) (hc : some c.Address = child) :
    moveChildDownLoop child (pre ++ c :: a :: post) = (pre ++ a :: c :: post, true) := by
  induction pre with
  | nil => simp [moveChildDownLoop, hc.symm]
  | cons p pre ih =>
    have hp : ¬ child = some p.Address := fun e => hpre p (List.mem_cons_self _ _) e.symm
    have := ih (fun x hx => hpre x (List.mem_cons_of_mem _ hx))
    simp [moveChildDownLoop, hp, this]

/-- C17. moveChildUp(child) returns true if and only if `child` is the address of a direct
child and not that of the first child.  When it returns true the children list is the
previous one with (the first occurrence of) the child and the child right before it
exchanged, every other position as before, and a following moveChildDown(child) returns true
and brings back the original list.  When it returns false the node and its children list are
as before. -/
theorem moveChildUp_swaps (this : CGUITreeViewNode) (child : Option Nat) :
    ((this.moveChildUp child).2 = true ↔
      (∃ c ∈ this.Children, some c.Address = child) ∧
      ∀ c, this.Children.head? = some c → some c.Address ≠ child) ∧
    ((this.moveChildUp child).2 = true →
      ∃ pre a c post, this.Children = pre ++ a :: c :: post ∧ some c.Address = child ∧
        (∀ x ∈ pre ++ [a], some x.Address ≠ child) ∧
        (this.moveChildUp child).1.Children = pre ++ c :: a :: post ∧
        ((this.moveChildUp child).1.moveChildDown child).2 = true ∧
        ((this.moveChildUp child).1.moveChildDown child).1.Children = this.Children) ∧
    ((this.moveChildUp child).2 = false → (this.moveChildUp child).1 = this) := by
  cases hcs : this.Children with
  | nil =>
    have hr : this.moveChildUp child = (this, false) := by simp [moveChildUp, hcs]
    rw [hr]
    refine ⟨⟨fun h => absurd h (by simp), ?_⟩, fun h => absurd h (by simp), fun _ => rfl⟩
    rintro ⟨⟨c, hc, _⟩, _⟩
    exact absurd hc (List.not_mem_nil c)
  | cons c0 rest =>
    by_cases h0 : child = some c0.Address
    · have hr : this.moveChildUp child = (this, false) := by simp [moveChildUp, hcs, h0]
      rw [hr]
      refine ⟨⟨fun h => absurd h (by simp), ?_⟩, fun h => absurd h (by simp), fun _ => rfl⟩
      rintro ⟨_, hfirst⟩
      exact absurd h0.symm (hfirst c0 rfl)
    · have h02 : some c0.Address ≠ child := fun e => h0 e.symm
      have hr : this.moveChildUp child =
          (this.setChildren (moveChildUpLoop child c0 rest).1,
            (moveChildUpLoop child c0 rest).2) := by
        simp [moveChildUp, hcs, h0]
      rw [hr]
      rcases moveChildUpLoop_spec child rest c0 h02 with
        ⟨h1, h2, h3⟩ | ⟨h1, pre, a, c, post, h2, h3, h4, h5⟩
      · refine ⟨⟨fun h => ?_, ?_⟩, fun h => ?_, fun _ => ?_⟩
        · simp only [h1] at h; exact absurd h (by simp)
        · rintro ⟨⟨c, hc, hcc⟩, _⟩
          rcases List.mem_cons.mp hc with rfl | hc2
          · exact absurd hcc h02
          · exact absurd hcc (h3 c hc2)
        · simp only [h1] at h; exact absurd h (by simp)
        · simp only [h2, ← hcs, setChildren_self]
      · refine ⟨⟨fun _ => ⟨⟨c, ?_, h3⟩, ?_⟩, fun _ => h1⟩, fun _ => ?_, fun h => ?_⟩
        · rw [h2]; simp
        · intro c1 hc1
          simp only [List.head?_cons, Option.some.injEq] at hc1
          rw [← hc1]; exact h02
        · have hpre : ∀ x ∈ pre, some x.Address ≠ child :=
            fun x hx => h4 x (List.mem_append_left _ hx)
          have hdown := moveChildDownLoop_swap child pre c a post hpre h3
          refine ⟨pre, a, c, post, h2, h3, h4, ?_, ?_, ?_⟩
          · simp only [setChildren_Children, h5]
          · simp only [moveChildDown, setChildren_Children, h5, hdown]
          · simp only [moveChildDown, setChildren_Children, h5, hdown, h2]
        · simp only [h1] at h; exact absurd h (by simp)

/-- Witness for C17: in the sample node (children 2, 3, 4) moveChildUp(3) returns true and
gives 3, 2, 4; moveChildDown(3) on the result returns true and gives 2, 3, 4 again. -/
theorem moveChildUp_swaps_witness :
    (sampleParent.moveChildUp (some 3)).2 = true ∧
    (sampleParent.moveChildUp (some 3)).1.childPointers = [3, 2, 4] ∧
    ((sampleParent.moveChildUp (some 3)).1.moveChildDown (some 3)).1.childPointers =
      [2, 3, 4] ∧
    ∃ pre a c post, sampleParent.Children = pre ++ a :: c :: post ∧
      some c.Address = some 3 ∧ (∀ x ∈ pre ++ [a], some x.Address ≠ some 3) ∧
      (sampleParent.moveChildUp (some 3)).1.Children = pre ++ c :: a :: post ∧
      ((sampleParent.moveChildUp (some 3)).1.moveChildDown (some 3)).2 = true ∧
      ((sampleParent.moveChildUp (some 3)).1.moveChildDown (some 3)).1.Children =
        sampleParent.Children :=
  ⟨by decide, by decide, by decide,
   (moveChildUp_swaps sampleParent (some 3)).2.1 (by decide)⟩

end CGUITreeViewNode
end irr
